import Mathlib

/-!
# Verification of the `typediter` runtime type-restriction library

Shallow embedding of the type-enforcement core of the `typediter` Python
library: runtime type-restricted containers (list / tuple / set / frozenset)
in two enforcement tiers ("light" and "complete").

The complete-tier `TypedFrozenset` is embedded directly from
`src/typediter/classes/complete/frozenset.py`.  The helper modules
(`typediter._helpers`, `typediter.exceptions`, `typediter.utils`) and the
light-tier / list / set / tuple classes are not part of the available
sources; they are modelled from the specification (each such definition
carries a doc comment starting with `Modelled from the spec:`).

Python machine model:
  * `PyVal`    — hashable item values (strings, ints, bools).
  * `PyType`   — candidate item types; `isinstance` is the Python check
                 (note `bool` is a subclass of `int` in Python).
  * `Restriction` — what can be passed as the `i_type` argument: either a
                 real type or a non-type value.
  * `PyObj`    — values passed as operation arguments: a scalar (only
                 strings among scalars are iterable, over their characters),
                 a reusable non-set iterable (list/tuple), a set-like
                 iterable (set/frozenset), or a one-shot generator.
  * `PyErr`    — the error taxonomy (the three typediter exceptions plus
                 native built-in failures, which the layer never swallows).

Object identity: Python distinguishes a freshly constructed instance from
the receiver (`result is self`).  We model identity with an `ident : Nat`
field; a constructor call made inside an operation allocates an object
whose identity differs from the (still live) receiver's, modelled as
`ident + 1`.
-/

/-- Item values stored in typed containers. -/
inductive PyVal where
  | vStr : String → PyVal
  | vInt : Int → PyVal
  | vBool : Bool → PyVal
  deriving DecidableEq, Repr

/-- Candidate item types. `listT` is an unhashable type (its instances
cannot be set members), used only as a restriction candidate. -/
inductive PyType where
  | strT | intT | boolT | listT
  deriving DecidableEq, Repr

/-- Python `isinstance` for our value universe.
`True`/`False` are instances of `int` in Python (bool subclasses int). -/
def isinstance : PyVal → PyType → Bool
  | .vStr _, .strT => true
  | .vInt _, .intT => true
  | .vBool _, .boolT => true
  | .vBool _, .intT => true
  | _, _ => false

/-- Whether a type's instances are hashable (usable as set members). -/
def PyType.isHashable : PyType → Bool
  | .listT => false
  | _ => true

/-- What can be supplied as a type restriction (`i_type` argument):
an actual type, or some non-type value such as the string
`'- NOT A TYPE -'` used by the tests. -/
inductive Restriction where
  | rType : PyType → Restriction
  | rNotAType : Restriction
  deriving DecidableEq, Repr

/-- The error taxonomy: the three typediter exceptions
(`TypeRestrictionError`, `InvalidTypeRestrictionError`,
`IterableExpectedError`) plus native errors raised by the underlying
built-in container algorithms themselves, which the enforcement layer
never suppresses. -/
inductive PyErr where
  | typeRestrictionError
  | invalidTypeRestrictionError
  | iterableExpectedError
  | nativeError
  deriving DecidableEq, Repr

/-- Values passed as operation arguments. -/
inductive PyObj where
  | scalar : PyVal → PyObj
  | iterObj : List PyVal → PyObj
  | setObj : List PyVal → PyObj
  | genObj : List PyVal → PyObj
  deriving DecidableEq, Repr

/-- The characters of a Python string, each itself a one-character string. -/
def strChars (s : String) : List PyVal :=
  s.data.map fun c => .vStr (String.mk [c])

/-- Whether an object is iterable: strings are (over characters); other
scalars are not; lists, tuples, sets, frozensets and generators are. -/
def PyObj.isIterable : PyObj → Bool
  | .scalar (.vStr _) => true
  | .scalar _ => false
  | _ => true

/-- The elements produced by iterating an object (in order). -/
def PyObj.elems : PyObj → List PyVal
  | .scalar (.vStr s) => strChars s
  | .scalar _ => []
  | .iterObj xs => xs
  | .setObj xs => xs
  | .genObj xs => xs

/-- Whether an object is a one-shot generator. -/
def PyObj.isGen : PyObj → Bool
  | .genObj _ => true
  | _ => false

/-- Whether an object is a set or frozenset (accepted by the binary set
operators of the built-in `frozenset`). -/
def PyObj.isSetLike : PyObj → Bool
  | .setObj _ => true
  | _ => false

/-- Modelled from the spec: `validate_item_type` (§4.1 Type Validator,
`typediter` internals not under src/).  Fails with
`InvalidTypeRestrictionError` if the candidate is not a type, or if the
container kind requires hashable items and the type is not hashable.
Returns the validated type. -/
def validate_item_type (requiresHashable : Bool) : Restriction → Except PyErr PyType
  | .rNotAType => .error .invalidTypeRestrictionError
  | .rType t =>
      if requiresHashable && !t.isHashable then .error .invalidTypeRestrictionError
      else .ok t

/-- Modelled from the spec: `check_single_item` (§4.2 Compatibility
Checker, `typediter._helpers` not under src/).  Fails with
`TypeRestrictionError` when the value is not an instance of the item
type. -/
def check_item_compatibility (v : PyVal) (t : PyType) : Except PyErr Unit :=
  if isinstance v t then .ok () else .error .typeRestrictionError

/-- Modelled from the spec: `check_object_compatibility`
(`typediter._helpers`, not under src/), the iterable compatibility check
used by the container operations.  It returns no useful value in Python;
here it returns the verdict together with the post-iteration state of the
argument, making the physical fact explicit that inspecting a one-shot
generator consumes it (which is why the callers in
`complete/frozenset.py` drain generators into tuples *before* calling it).
Fails with `IterableExpectedError` on a non-iterable and with
`TypeRestrictionError` when some element is not an instance of the item
type. -/
def check_object_compatibility (value : PyObj) (t : PyType) :
    Except PyErr Unit × PyObj :=
  if value.isIterable then
    let verdict : Except PyErr Unit :=
      if value.elems.all (fun x => isinstance x t) then .ok ()
      else .error .typeRestrictionError
    match value with
    | .genObj _ => (verdict, .genObj [])
    | v => (verdict, v)
  else (.error .iterableExpectedError, value)

/-- `contains_generators` from `typediter._helpers` (not under src/),
modelled from the spec and its use in `complete/frozenset.py`: whether any
of the received operation arguments is a one-shot generator. -/
def contains_generators (objs : List PyObj) : Bool :=
  objs.any PyObj.isGen

/-- `unpack_generators` from `typediter._helpers` (not under src/),
modelled from the spec and its use in `complete/frozenset.py`: materialize
every generator argument into a reusable concrete sequence (a tuple),
leaving other arguments untouched. -/
def unpack_generators (objs : List PyObj) : List PyObj :=
  objs.map fun o =>
    match o with
    | .genObj xs => .iterObj xs
    | o => o

/-- Sequential compatibility check of several operation arguments, as
performed by the `for` loop in `TypedFrozenset.union`: arguments are
checked in order, the first failure wins, and each inspected argument is
left in its post-iteration state. -/
def checkAllObjects (objs : List PyObj) (t : PyType) :
    Except PyErr Unit × List PyObj :=
  match objs with
  | [] => (.ok (), [])
  | o :: rest =>
      match check_object_compatibility o t with
      | (.error e, o') => (.error e, o' :: rest)
      | (.ok _, o') =>
          let (v, rest') := checkAllObjects rest t
          (v, o' :: rest')

/-! ## Built-in `frozenset` algorithms

The underlying plain-container algorithms the typed layer delegates to
(`super().difference(...)` etc.).  A built-in raises its own native error
(here `nativeError`) when handed a non-iterable, or — for the binary
operators — a non-set operand. -/

/-- Symmetric difference of two finite sets. -/
def symmDiffSet (a b : Finset PyVal) : Finset PyVal := (a \ b) ∪ (b \ a)

/-- Built-in `frozenset.difference(*iterables)`. -/
def builtinDifference (base : Finset PyVal) (args : List PyObj) :
    Except PyErr (Finset PyVal) :=
  if args.all PyObj.isIterable then
    .ok (args.foldl (fun acc o => acc \ o.elems.toFinset) base)
  else .error .nativeError

/-- Built-in `frozenset.intersection(*iterables)`. -/
def builtinIntersection (base : Finset PyVal) (args : List PyObj) :
    Except PyErr (Finset PyVal) :=
  if args.all PyObj.isIterable then
    .ok (args.foldl (fun acc o => acc ∩ o.elems.toFinset) base)
  else .error .nativeError

/-- Built-in `frozenset.union(*iterables)`. -/
def builtinUnion (base : Finset PyVal) (args : List PyObj) :
    Except PyErr (Finset PyVal) :=
  if args.all PyObj.isIterable then
    .ok (args.foldl (fun acc o => acc ∪ o.elems.toFinset) base)
  else .error .nativeError

/-- Built-in `frozenset.symmetric_difference(value)`. -/
def builtinSymmDiff (base : Finset PyVal) (value : PyObj) :
    Except PyErr (Finset PyVal) :=
  if value.isIterable then .ok (symmDiffSet base value.elems.toFinset)
  else .error .nativeError

/-- Built-in `frozenset.__sub__`: defined only on set operands. -/
def builtinSubOp (base : Finset PyVal) (value : PyObj) :
    Except PyErr (Finset PyVal) :=
  match value with
  | .setObj xs => .ok (base \ xs.toFinset)
  | _ => .error .nativeError

/-- Built-in `frozenset.__and__`: defined only on set operands. -/
def builtinAndOp (base : Finset PyVal) (value : PyObj) :
    Except PyErr (Finset PyVal) :=
  match value with
  | .setObj xs => .ok (base ∩ xs.toFinset)
  | _ => .error .nativeError

/-- Built-in `frozenset.__or__`: defined only on set operands. -/
def builtinOrOp (base : Finset PyVal) (value : PyObj) :
    Except PyErr (Finset PyVal) :=
  match value with
  | .setObj xs => .ok (base ∪ xs.toFinset)
  | _ => .error .nativeError

/-- Built-in `frozenset.__xor__`: defined only on set operands. -/
def builtinXorOp (base : Finset PyVal) (value : PyObj) :
    Except PyErr (Finset PyVal) :=
  match value with
  | .setObj xs => .ok (symmDiffSet base xs.toFinset)
  | _ => .error .nativeError

/-! ## The complete-tier `TypedFrozenset`

Embedded from `src/typediter/classes/complete/frozenset.py`. -/

/-- A `TypedFrozenset` instance: object identity, the backing frozenset
of items, and the item-type restriction `i_type`. -/
structure TypedFrozenset where
  ident : Nat
  items : Finset PyVal
  i_type : PyType
  deriving DecidableEq

/-- The internal construction
`TypedFrozenset(new_set, i_type=self.i_type, _skip_type_check=True)` used
by every derivational operation of `complete/frozenset.py`: builds a fresh
instance (identity distinct from the still-live receiver) around an
already-computed set, skipping the compatibility check. -/
def TypedFrozenset.freshFrom (s : TypedFrozenset) (xs : Finset PyVal) :
    TypedFrozenset :=
  ⟨s.ident + 1, xs, s.i_type⟩

/-- Modelled from the spec: public construction
`TypedFrozenset(initial, i_type=...)` (the base/light-tier `__new__`, not
under src/).  Validates the restriction first (unique-item kind, so the
type must be hashable), then — for a supplied initial iterable —
materializes a one-shot argument, checks every element, and builds the
backing frozenset. -/
def TypedFrozenset.init (newId : Nat) (init : Option PyObj) (r : Restriction) :
    Except PyErr TypedFrozenset :=
  match validate_item_type true r with
  | .error e => .error e
  | .ok t =>
      match init with
      | none => .ok ⟨newId, ∅, t⟩
      | some obj =>
          match (check_object_compatibility
              (if obj.isGen then PyObj.iterObj obj.elems else obj) t).1 with
          | .error e => .error e
          | .ok _ => .ok ⟨newId, obj.elems.toFinset, t⟩

/-- `TypedFrozenset.difference` (frozenset.py lines 90–98): no type check —
every returned item is already present in self; delegates and wraps. -/
def TypedFrozenset.difference (s : TypedFrozenset) (iterables : List PyObj) :
    Except PyErr TypedFrozenset :=
  match builtinDifference s.items iterables with
  | .error e => .error e
  | .ok xs => .ok (s.freshFrom xs)

/-- `TypedFrozenset.intersection` (frozenset.py lines 100–108): no type
check — if it intersects it is already in self; delegates and wraps. -/
def TypedFrozenset.intersection (s : TypedFrozenset) (iterables : List PyObj) :
    Except PyErr TypedFrozenset :=
  match builtinIntersection s.items iterables with
  | .error e => .error e
  | .ok xs => .ok (s.freshFrom xs)

/-- `TypedFrozenset.symmetric_difference` (frozenset.py lines 110–121):
drains a generator argument into a tuple (generators can be used only
once), checks compatibility, then delegates on the post-check state of the
argument and wraps. -/
def TypedFrozenset.symmetric_difference (s : TypedFrozenset) (value : PyObj) :
    Except PyErr TypedFrozenset :=
  let value := if value.isGen then PyObj.iterObj value.elems else value
  match check_object_compatibility value s.i_type with
  | (.error e, _) => .error e
  | (.ok _, value') =>
      match builtinSymmDiff s.items value' with
      | .error e => .error e
      | .ok xs => .ok (s.freshFrom xs)

/-- `TypedFrozenset.union` (frozenset.py lines 123–136): unpacks generator
arguments into tuples (generators can be used only once), checks each
argument in order, then delegates on the post-check argument states and
wraps. -/
def TypedFrozenset.union (s : TypedFrozenset) (iterables : List PyObj) :
    Except PyErr TypedFrozenset :=
  let iterables :=
    if contains_generators iterables then unpack_generators iterables
    else iterables
  match checkAllObjects iterables s.i_type with
  | (.error e, _) => .error e
  | (.ok _, iterables') =>
      match builtinUnion s.items iterables' with
      | .error e => .error e
      | .ok xs => .ok (s.freshFrom xs)

/-- `TypedFrozenset.__sub__` (frozenset.py lines 138–143): no type check;
delegates and wraps. -/
def TypedFrozenset.sub_op (s : TypedFrozenset) (value : PyObj) :
    Except PyErr TypedFrozenset :=
  match builtinSubOp s.items value with
  | .error e => .error e
  | .ok xs => .ok (s.freshFrom xs)

/-- `TypedFrozenset.__and__` (frozenset.py lines 145–150): no type check;
delegates and wraps. -/
def TypedFrozenset.and_op (s : TypedFrozenset) (value : PyObj) :
    Except PyErr TypedFrozenset :=
  match builtinAndOp s.items value with
  | .error e => .error e
  | .ok xs => .ok (s.freshFrom xs)

/-- `TypedFrozenset.__or__` (frozenset.py lines 152–156): checks the
operand's compatibility, then delegates on its post-check state and
wraps. -/
def TypedFrozenset.or_op (s : TypedFrozenset) (value : PyObj) :
    Except PyErr TypedFrozenset :=
  match check_object_compatibility value s.i_type with
  | (.error e, _) => .error e
  | (.ok _, value') =>
      match builtinOrOp s.items value' with
      | .error e => .error e
      | .ok xs => .ok (s.freshFrom xs)

/-- `TypedFrozenset.__xor__` (frozenset.py lines 158–162): checks the
operand's compatibility, then delegates on its post-check state and
wraps. -/
def TypedFrozenset.xor_op (s : TypedFrozenset) (value : PyObj) :
    Except PyErr TypedFrozenset :=
  match check_object_compatibility value s.i_type with
  | (.error e, _) => .error e
  | (.ok _, value') =>
      match builtinXorOp s.items value' with
      | .error e => .error e
      | .ok xs => .ok (s.freshFrom xs)

/-- Modelled from the spec: `copy` on the complete-tier frozenset (not
under src/): returns a fresh instance of the same typed class with the
same elements. -/
def TypedFrozenset.copy (s : TypedFrozenset) : TypedFrozenset :=
  s.freshFrom s.items

/-- The type-safety invariant: every contained item is an instance of the
declared item type. -/
def TypedFrozenset.Valid (s : TypedFrozenset) : Prop :=
  ∀ x ∈ s.items, isinstance x s.i_type = true

instance (s : TypedFrozenset) : Decidable s.Valid := by
  unfold TypedFrozenset.Valid; infer_instance

/-! ## The light-tier `TypedFrozenset_lt`

Modelled from the spec (§4.4 operation-policy table) and the tests in
`tests/test_cases/common_set.py`: the light tier only guards construction
and insertion; every non-mutating derivation falls through to the plain
built-in algorithm and returns a plain `frozenset` result. -/

/-- Modelled from the spec: a light-tier `TypedFrozenset_lt` instance
(class not under src/). -/
structure TypedFrozenset_lt where
  ident : Nat
  items : Finset PyVal
  i_type : PyType
  deriving DecidableEq

/-- Modelled from the spec: light-tier construction — identical guarding
of construction input as the complete tier. -/
def TypedFrozenset_lt.init (newId : Nat) (init : Option PyObj) (r : Restriction) :
    Except PyErr TypedFrozenset_lt :=
  match validate_item_type true r with
  | .error e => .error e
  | .ok t =>
      match init with
      | none => .ok ⟨newId, ∅, t⟩
      | some obj =>
          match (check_object_compatibility
              (if obj.isGen then PyObj.iterObj obj.elems else obj) t).1 with
          | .error e => .error e
          | .ok _ => .ok ⟨newId, obj.elems.toFinset, t⟩

/-- Modelled from the spec: light-tier `difference` is handled by the
built-in and returns a plain `frozenset`. -/
def TypedFrozenset_lt.difference (s : TypedFrozenset_lt) (iterables : List PyObj) :
    Except PyErr (Finset PyVal) :=
  builtinDifference s.items iterables

/-- Modelled from the spec: light-tier `intersection` is handled by the
built-in and returns a plain `frozenset`. -/
def TypedFrozenset_lt.intersection (s : TypedFrozenset_lt) (iterables : List PyObj) :
    Except PyErr (Finset PyVal) :=
  builtinIntersection s.items iterables

/-- Modelled from the spec: light-tier `copy` is the exception to the
light-tier rule — it returns a fresh instance of the same typed class,
never a plain container. -/
def TypedFrozenset_lt.copy (s : TypedFrozenset_lt) : TypedFrozenset_lt :=
  ⟨s.ident + 1, s.items, s.i_type⟩

/-! ## Tier result tagging

Python distinguishes the runtime class of an operation result
(`type(result) is ...` in `tests/helpers/assertions/operation_asserts.py`).
`TierResult` tags a set-operation result with its concrete runtime class:
a plain built-in `frozenset` or the typed class. -/

/-- The concrete runtime class of a set-derivation result. -/
inductive TierResult where
  | builtinFs : Finset PyVal → TierResult
  | typedFs : TypedFrozenset → TierResult
  deriving DecidableEq

/-- Light-tier `difference` with its runtime result class made explicit. -/
def TypedFrozenset_lt.differenceTagged (s : TypedFrozenset_lt)
    (iterables : List PyObj) : Except PyErr TierResult :=
  match s.difference iterables with
  | .error e => .error e
  | .ok b => .ok (.builtinFs b)

/-- Light-tier `intersection` with its runtime result class made
explicit. -/
def TypedFrozenset_lt.intersectionTagged (s : TypedFrozenset_lt)
    (iterables : List PyObj) : Except PyErr TierResult :=
  match s.intersection iterables with
  | .error e => .error e
  | .ok b => .ok (.builtinFs b)

/-- Complete-tier `difference` with its runtime result class made
explicit. -/
def TypedFrozenset.differenceTagged (s : TypedFrozenset)
    (iterables : List PyObj) : Except PyErr TierResult :=
  match s.difference iterables with
  | .error e => .error e
  | .ok r => .ok (.typedFs r)

/-- Complete-tier `intersection` with its runtime result class made
explicit. -/
def TypedFrozenset.intersectionTagged (s : TypedFrozenset)
    (iterables : List PyObj) : Except PyErr TierResult :=
  match s.intersection iterables with
  | .error e => .error e
  | .ok r => .ok (.typedFs r)

/-! ## Typed lists, tuples and sets

All modelled from the spec (the classes are not under src/): §3, §4.4 and
the tests `tests/test_cases/list.py`, `set.py`, `base.py`,
`common_copy.py`.  Mutating operations are shared between the light and
complete tiers (they are defined in the light class and inherited), so a
single model covers both tiers' mutation behaviour.  A mutating operation
returns its verdict together with the post-call state of the receiver:
on failure the receiver must be unchanged. -/

/-- Modelled from the spec: a complete-tier `TypedList` instance. -/
structure TypedList where
  ident : Nat
  items : List PyVal
  i_type : PyType
  deriving DecidableEq

/-- Modelled from the spec: a light-tier `TypedList_lt` instance. -/
structure TypedList_lt where
  ident : Nat
  items : List PyVal
  i_type : PyType
  deriving DecidableEq

/-- Modelled from the spec: a `TypedTuple` instance. -/
structure TypedTuple where
  ident : Nat
  items : List PyVal
  i_type : PyType
  deriving DecidableEq

/-- Modelled from the spec: a complete-tier `TypedSet` instance. -/
structure TypedSet where
  ident : Nat
  items : Finset PyVal
  i_type : PyType
  deriving DecidableEq

/-- Modelled from the spec: a light-tier `TypedSet_lt` instance. -/
structure TypedSet_lt where
  ident : Nat
  items : Finset PyVal
  i_type : PyType
  deriving DecidableEq

/-- Modelled from the spec: `TypedList(initial, i_type=...)` construction.
List items need not be hashable; the restriction is validated before any
look at the data, then every element is checked. -/
def TypedList.init (newId : Nat) (init : Option PyObj) (r : Restriction) :
    Except PyErr TypedList :=
  match validate_item_type false r with
  | .error e => .error e
  | .ok t =>
      match init with
      | none => .ok ⟨newId, [], t⟩
      | some obj =>
          match (check_object_compatibility
              (if obj.isGen then PyObj.iterObj obj.elems else obj) t).1 with
          | .error e => .error e
          | .ok _ => .ok ⟨newId, obj.elems, t⟩

/-- Modelled from the spec: `TypedTuple(initial, i_type=...)` construction
(same policy as `TypedList.init`). -/
def TypedTuple.init (newId : Nat) (init : Option PyObj) (r : Restriction) :
    Except PyErr TypedTuple :=
  match validate_item_type false r with
  | .error e => .error e
  | .ok t =>
      match init with
      | none => .ok ⟨newId, [], t⟩
      | some obj =>
          match (check_object_compatibility
              (if obj.isGen then PyObj.iterObj obj.elems else obj) t).1 with
          | .error e => .error e
          | .ok _ => .ok ⟨newId, obj.elems, t⟩

/-- Modelled from the spec: `TypedSet(initial, i_type=...)` construction
(unique-item kind, so the item type must additionally be hashable). -/
def TypedSet.init (newId : Nat) (init : Option PyObj) (r : Restriction) :
    Except PyErr TypedSet :=
  match validate_item_type true r with
  | .error e => .error e
  | .ok t =>
      match init with
      | none => .ok ⟨newId, ∅, t⟩
      | some obj =>
          match (check_object_compatibility
              (if obj.isGen then PyObj.iterObj obj.elems else obj) t).1 with
          | .error e => .error e
          | .ok _ => .ok ⟨newId, obj.elems.toFinset, t⟩

/-- Modelled from the spec: `TypedList.append` — checks the single item,
then mutates in place; a failed check leaves the receiver unchanged. -/
def TypedList.append (s : TypedList) (v : PyVal) :
    Except PyErr Unit × TypedList :=
  match check_item_compatibility v s.i_type with
  | .error e => (.error e, s)
  | .ok _ => (.ok (), ⟨s.ident, s.items ++ [v], s.i_type⟩)

/-- Modelled from the spec: `TypedList.insert` — checks the single item,
then inserts at the (clamped, as in Python) position. -/
def TypedList.insert (s : TypedList) (i : Nat) (v : PyVal) :
    Except PyErr Unit × TypedList :=
  match check_item_compatibility v s.i_type with
  | .error e => (.error e, s)
  | .ok _ =>
      (.ok (), ⟨s.ident, s.items.take i ++ [v] ++ s.items.drop i, s.i_type⟩)

/-- Modelled from the spec: `TypedList.extend` — materializes a one-shot
argument, checks every element, then appends them all. -/
def TypedList.extend (s : TypedList) (obj : PyObj) :
    Except PyErr Unit × TypedList :=
  match (check_object_compatibility
      (if obj.isGen then PyObj.iterObj obj.elems else obj) s.i_type).1 with
  | .error e => (.error e, s)
  | .ok _ => (.ok (), ⟨s.ident, s.items ++ obj.elems, s.i_type⟩)

/-- Modelled from the spec: `TypedList.__iadd__` — same checked in-place
extension as `extend`, returning the receiver. -/
def TypedList.iadd (s : TypedList) (obj : PyObj) :
    Except PyErr Unit × TypedList :=
  s.extend obj

/-- Modelled from the spec: `TypedList.__setitem__(index, item)` — checks
the single item, then replaces the element; an out-of-range index is a
native failure (raised by the built-in, after the check). -/
def TypedList.setitem_index (s : TypedList) (i : Nat) (v : PyVal) :
    Except PyErr Unit × TypedList :=
  match check_item_compatibility v s.i_type with
  | .error e => (.error e, s)
  | .ok _ =>
      if i < s.items.length then (.ok (), ⟨s.ident, s.items.set i v, s.i_type⟩)
      else (.error .nativeError, s)

/-- Modelled from the spec: `TypedList.__setitem__(slice, iterable)` —
a non-iterable value fails with `IterableExpectedError`; otherwise the
elements are checked and the slice `[a:b]` replaced (Python clamps an
inverted slice to an insertion at `a`). -/
def TypedList.setitem_slice (s : TypedList) (a b : Nat) (obj : PyObj) :
    Except PyErr Unit × TypedList :=
  match (check_object_compatibility
      (if obj.isGen then PyObj.iterObj obj.elems else obj) s.i_type).1 with
  | .error e => (.error e, s)
  | .ok _ =>
      (.ok (),
        ⟨s.ident, s.items.take a ++ obj.elems ++ s.items.drop (max a b), s.i_type⟩)

/-- Modelled from the spec: `TypedSet.add` — checks the single item, then
inserts it. -/
def TypedSet.add (s : TypedSet) (v : PyVal) : Except PyErr Unit × TypedSet :=
  match check_item_compatibility v s.i_type with
  | .error e => (.error e, s)
  | .ok _ => (.ok (), ⟨s.ident, insert v s.items, s.i_type⟩)

/-- Modelled from the spec: `TypedSet.update(*iterables)` — materializes
one-shot arguments, checks every element of every argument, then unions
them all into the receiver; a failed check leaves the receiver
unchanged. -/
def TypedSet.update (s : TypedSet) (objs : List PyObj) :
    Except PyErr Unit × TypedSet :=
  let objs := if contains_generators objs then unpack_generators objs else objs
  match checkAllObjects objs s.i_type with
  | (.error e, _) => (.error e, s)
  | (.ok _, objs') =>
      (.ok (),
        ⟨s.ident, objs'.foldl (fun acc o => acc ∪ o.elems.toFinset) s.items,
          s.i_type⟩)

/-- Modelled from the spec: `TypedSet.symmetric_difference_update` /
`TypedSet.__ixor__` — materializes a one-shot argument, checks every
element, then replaces the receiver's items with the symmetric
difference. -/
def TypedSet.ixor (s : TypedSet) (obj : PyObj) : Except PyErr Unit × TypedSet :=
  match (check_object_compatibility
      (if obj.isGen then PyObj.iterObj obj.elems else obj) s.i_type).1 with
  | .error e => (.error e, s)
  | .ok _ =>
      (.ok (), ⟨s.ident, symmDiffSet s.items obj.elems.toFinset, s.i_type⟩)

/-- Modelled from the spec: `TypedList.copy` — a fresh instance of the
same typed class with equal elements. -/
def TypedList.copy (s : TypedList) : TypedList :=
  ⟨s.ident + 1, s.items, s.i_type⟩

/-- Modelled from the spec: `TypedList_lt.copy` — the light tier's
exception: still returns a fresh instance of the typed class. -/
def TypedList_lt.copy (s : TypedList_lt) : TypedList_lt :=
  ⟨s.ident + 1, s.items, s.i_type⟩

/-- Modelled from the spec: `TypedSet.copy` — a fresh instance of the
same typed class with equal elements. -/
def TypedSet.copy (s : TypedSet) : TypedSet :=
  ⟨s.ident + 1, s.items, s.i_type⟩

/-- Modelled from the spec: `TypedSet_lt.copy` — the light tier's
exception: still returns a fresh instance of the typed class. -/
def TypedSet_lt.copy (s : TypedSet_lt) : TypedSet_lt :=
  ⟨s.ident + 1, s.items, s.i_type⟩

/-! ## Converter utilities

Modelled from the spec (§4.3, `typediter.utils` not under src/). -/

/-- Modelled from the spec: `get_converter_func(TypedList, i_type=...)` —
validates the restriction eagerly at creation, returning a closure that
fully checks its input and builds a `TypedList`. -/
def get_converter_func_list (r : Restriction) :
    Except PyErr (PyObj → Except PyErr TypedList) :=
  match validate_item_type false r with
  | .error _ => .error .invalidTypeRestrictionError
  | .ok _ => .ok (fun obj => TypedList.init 0 (some obj) r)

/-- Modelled from the spec: `get_converter_func(TypedTuple, i_type=...)`. -/
def get_converter_func_tuple (r : Restriction) :
    Except PyErr (PyObj → Except PyErr TypedTuple) :=
  match validate_item_type false r with
  | .error _ => .error .invalidTypeRestrictionError
  | .ok _ => .ok (fun obj => TypedTuple.init 0 (some obj) r)

/-- Modelled from the spec: `get_converter_func(TypedSet, i_type=...)` —
the unique-item kind requires a hashable item type. -/
def get_converter_func_set (r : Restriction) :
    Except PyErr (PyObj → Except PyErr TypedSet) :=
  match validate_item_type true r with
  | .error _ => .error .invalidTypeRestrictionError
  | .ok _ => .ok (fun obj => TypedSet.init 0 (some obj) r)

/-- Modelled from the spec: `get_converter_func(TypedFrozenset, i_type=...)`. -/
def get_converter_func_frozenset (r : Restriction) :
    Except PyErr (PyObj → Except PyErr TypedFrozenset) :=
  match validate_item_type true r with
  | .error _ => .error .invalidTypeRestrictionError
  | .ok _ => .ok (fun obj => TypedFrozenset.init 0 (some obj) r)

/-- Modelled from the spec: `get_typesafe_tuple_converter_func` — same
checking, but producing a plain built-in tuple. -/
def get_typesafe_tuple_converter_func (r : Restriction) :
    Except PyErr (PyObj → Except PyErr (List PyVal)) :=
  match validate_item_type false r with
  | .error _ => .error .invalidTypeRestrictionError
  | .ok t => .ok (fun obj =>
      match (check_object_compatibility
          (if obj.isGen then PyObj.iterObj obj.elems else obj) t).1 with
      | .error e => .error e
      | .ok _ => .ok obj.elems)

/-- Modelled from the spec: `get_typesafe_frozenset_converter_func` — same
checking, but producing a plain built-in frozenset; the item type must be
hashable. -/
def get_typesafe_frozenset_converter_func (r : Restriction) :
    Except PyErr (PyObj → Except PyErr (Finset PyVal)) :=
  match validate_item_type true r with
  | .error _ => .error .invalidTypeRestrictionError
  | .ok t => .ok (fun obj =>
      match (check_object_compatibility
          (if obj.isGen then PyObj.iterObj obj.elems else obj) t).1 with
      | .error e => .error e
      | .ok _ => .ok obj.elems.toFinset)

/-- Data that would fail the compatibility check on its own, independently
of the restriction's validity: a non-iterable value (which would raise
`IterableExpectedError`), or — when the supplied restriction names a type —
an iterable containing an element that is not an instance of that type
(which would raise `TypeRestrictionError`). -/
def dataFailsIndependently (r : Restriction) (obj : PyObj) : Bool :=
  !obj.isIterable ||
    (match r with
     | .rType t => !obj.elems.all (fun x => isinstance x t)
     | .rNotAType => false)

/-! ## Mutating-operation state machine (atomicity) -/

/-- A mutable typed container (the receivers of in-place operations). -/
inductive MutState where
  | ml : TypedList → MutState
  | ms : TypedSet → MutState
  deriving DecidableEq

/-- The declared item type of a mutable receiver. -/
def MutState.itype : MutState → PyType
  | .ml s => s.i_type
  | .ms s => s.i_type

/-- The mutating operations of the typed containers. -/
inductive MutOp where
  | mAppend (v : PyVal)
  | mInsert (i : Nat) (v : PyVal)
  | mExtend (o : PyObj)
  | mSetitemIndex (i : Nat) (v : PyVal)
  | mSetitemSlice (a b : Nat) (o : PyObj)
  | mIadd (o : PyObj)
  | mAdd (v : PyVal)
  | mUpdate (os : List PyObj)
  | mIxor (o : PyObj)
  deriving DecidableEq

/-- One mutating call: the verdict (raised error or success) together with
the post-call state of the receiver.  An operation not defined on the
receiver's kind is a native failure. -/
def mutStep : MutState → MutOp → Except PyErr Unit × MutState
  | .ml s, .mAppend v => (fun p => (p.1, .ml p.2)) (s.append v)
  | .ml s, .mInsert i v => (fun p => (p.1, .ml p.2)) (s.insert i v)
  | .ml s, .mExtend o => (fun p => (p.1, .ml p.2)) (s.extend o)
  | .ml s, .mSetitemIndex i v => (fun p => (p.1, .ml p.2)) (s.setitem_index i v)
  | .ml s, .mSetitemSlice a b o => (fun p => (p.1, .ml p.2)) (s.setitem_slice a b o)
  | .ml s, .mIadd o => (fun p => (p.1, .ml p.2)) (s.iadd o)
  | .ms s, .mAdd v => (fun p => (p.1, .ms p.2)) (s.add v)
  | .ms s, .mUpdate os => (fun p => (p.1, .ms p.2)) (s.update os)
  | .ms s, .mIxor o => (fun p => (p.1, .ms p.2)) (s.ixor o)
  | st, _ => (.error .nativeError, st)

/-- Whether a mutating operation's argument contains at least one
incompatible element, or is non-iterable where an iterable is expected. -/
def MutOp.hasBadArg : MutOp → PyType → Bool
  | .mAppend v, t => !isinstance v t
  | .mInsert _ v, t => !isinstance v t
  | .mSetitemIndex _ v, t => !isinstance v t
  | .mAdd v, t => !isinstance v t
  | .mExtend o, t => !o.isIterable || !(o.elems.all (isinstance · t))
  | .mIadd o, t => !o.isIterable || !(o.elems.all (isinstance · t))
  | .mSetitemSlice _ _ o, t => !o.isIterable || !(o.elems.all (isinstance · t))
  | .mIxor o, t => !o.isIterable || !(o.elems.all (isinstance · t))
  | .mUpdate os, t =>
      os.any (fun o => !o.isIterable || !(o.elems.all (isinstance · t)))

/-- Whether a verdict is a success. -/
def verdictOk : Except PyErr Unit → Bool
  | .ok _ => true
  | .error _ => false

/-! ## Full operation traces (invariant preservation) -/

/-- Any typed container tracked through a trace of operations. -/
inductive Container where
  | tl : TypedList → Container
  | ts : TypedSet → Container
  | tf : TypedFrozenset → Container
  deriving DecidableEq

/-- The type-safety invariant of a typed container: every element is an
instance of the declared item type. -/
def Container.Valid : Container → Prop
  | .tl s => ∀ x ∈ s.items, isinstance x s.i_type = true
  | .ts s => ∀ x ∈ s.items, isinstance x s.i_type = true
  | .tf s => s.Valid

/-- An operation in a trace: a mutating call on the current container, a
frozenset derivation (the trace continues with the produced container),
or a copy. -/
inductive TCOp where
  | mutOp (op : MutOp)
  | fDifference (os : List PyObj)
  | fIntersection (os : List PyObj)
  | fSymmDiff (o : PyObj)
  | fUnion (os : List PyObj)
  | fSub (o : PyObj)
  | fAnd (o : PyObj)
  | fOr (o : PyObj)
  | fXor (o : PyObj)
  | tcCopy
  deriving DecidableEq

/-- One successful step of a trace: mutations continue with the mutated
receiver, derivations with the produced container.  A failed operation
ends the (successful) trace. -/
def tcStep : Container → TCOp → Except PyErr Container
  | .tl s, .mutOp op =>
      match mutStep (.ml s) op with
      | (.ok _, st) => .ok (match st with | .ml s' => .tl s' | .ms s' => .ts s')
      | (.error e, _) => .error e
  | .ts s, .mutOp op =>
      match mutStep (.ms s) op with
      | (.ok _, st) => .ok (match st with | .ml s' => .tl s' | .ms s' => .ts s')
      | (.error e, _) => .error e
  | .tf s, .fDifference os => (Container.tf ·) <$> s.difference os
  | .tf s, .fIntersection os => (Container.tf ·) <$> s.intersection os
  | .tf s, .fSymmDiff o => (Container.tf ·) <$> s.symmetric_difference o
  | .tf s, .fUnion os => (Container.tf ·) <$> s.union os
  | .tf s, .fSub o => (Container.tf ·) <$> s.sub_op o
  | .tf s, .fAnd o => (Container.tf ·) <$> s.and_op o
  | .tf s, .fOr o => (Container.tf ·) <$> s.or_op o
  | .tf s, .fXor o => (Container.tf ·) <$> s.xor_op o
  | .tl s, .tcCopy => .ok (.tl s.copy)
  | .ts s, .tcCopy => .ok (.ts s.copy)
  | .tf s, .tcCopy => .ok (.tf s.copy)
  | _, _ => .error .nativeError

/-- Run a whole trace of operations; succeeds only if every step does. -/
def tcRun : Container → List TCOp → Except PyErr Container
  | c, [] => .ok c
  | c, op :: ops =>
      match tcStep c op with
      | .error e => .error e
      | .ok c' => tcRun c' ops

/-- The type-safety invariant of a mutable receiver. -/
def MutState.Valid : MutState → Prop
  | .ml s => ∀ x ∈ s.items, isinstance x s.i_type = true
  | .ms s => ∀ x ∈ s.items, isinstance x s.i_type = true

/-! ## Lemmas about the compatibility checker -/

theorem check_fst (o : PyObj) (t : PyType) :
    (check_object_compatibility o t).1 =
      if o.isIterable then
        (if o.elems.all (fun x => isinstance x t) then Except.ok ()
         else Except.error PyErr.typeRestrictionError)
      else Except.error PyErr.iterableExpectedError := by
  cases o with
  | scalar v => cases v <;> rfl
  | iterObj xs => rfl
  | setObj xs => rfl
  | genObj xs => rfl

theorem check_snd_of_not_gen {o : PyObj} (t : PyType) (h : o.isGen = false) :
    (check_object_compatibility o t).2 = o := by
  cases o with
  | scalar v => cases v <;> rfl
  | iterObj xs => rfl
  | setObj xs => rfl
  | genObj xs => simp [PyObj.isGen] at h

theorem check_snd_gen (xs : List PyVal) (t : PyType) :
    (check_object_compatibility (.genObj xs) t).2 = .genObj [] := by
  rfl

theorem check_ok_iterable {o : PyObj} {t : PyType} {u : Unit}
    (h : (check_object_compatibility o t).1 = .ok u) : o.isIterable = true := by
  rw [check_fst] at h
  by_contra hn
  rw [Bool.not_eq_true] at hn
  rw [hn] at h
  simp at h

theorem check_ok_elems {o : PyObj} {t : PyType} {u : Unit}
    (h : (check_object_compatibility o t).1 = .ok u) :
    ∀ x ∈ o.elems, isinstance x t = true := by
  rw [check_fst] at h
  split at h
  · split at h
    · exact List.all_eq_true.mp ‹_›
    · simp at h
  · simp at h

theorem check_ok_of {o : PyObj} {t : PyType} (h1 : o.isIterable = true)
    (h2 : ∀ x ∈ o.elems, isinstance x t = true) :
    (check_object_compatibility o t).1 = .ok () := by
  rw [check_fst, h1]
  simp [List.all_eq_true.mpr h2]

theorem check_eq_of_ok {o : PyObj} {t : PyType} (h1 : o.isIterable = true)
    (h2 : ∀ x ∈ o.elems, isinstance x t = true) (h3 : o.isGen = false) :
    check_object_compatibility o t = (.ok (), o) := by
  have hf := check_ok_of h1 h2 (o := o) (t := t)
  have hs := check_snd_of_not_gen (o := o) t h3
  calc check_object_compatibility o t
      = ((check_object_compatibility o t).1, (check_object_compatibility o t).2) := rfl
    _ = (.ok (), o) := by rw [hf, hs]

theorem check_err_of_not_iterable {o : PyObj} {t : PyType}
    (h : o.isIterable = false) :
    (check_object_compatibility o t).1 = .error .iterableExpectedError := by
  rw [check_fst, h]
  simp

theorem check_err_of_bad_elem {o : PyObj} {t : PyType}
    (h1 : o.isIterable = true) (h2 : o.elems.all (fun x => isinstance x t) = false) :
    (check_object_compatibility o t).1 = .error .typeRestrictionError := by
  rw [check_fst, h1, h2]
  simp

/-- After a successful check, the post-iteration state is still iterable
and all of its elements are compatible (a consumed generator has none). -/
theorem check_snd_ok {o : PyObj} {t : PyType} {u : Unit}
    (h : (check_object_compatibility o t).1 = .ok u) :
    (check_object_compatibility o t).2.isIterable = true ∧
      ∀ x ∈ (check_object_compatibility o t).2.elems, isinstance x t = true := by
  by_cases hg : o.isGen = true
  · cases o with
    | genObj xs =>
        rw [check_snd_gen]
        exact ⟨rfl, by simp [PyObj.elems]⟩
    | scalar v => simp [PyObj.isGen] at hg
    | iterObj xs => simp [PyObj.isGen] at hg
    | setObj xs => simp [PyObj.isGen] at hg
  · rw [Bool.not_eq_true] at hg
    rw [check_snd_of_not_gen t hg]
    exact ⟨check_ok_iterable h, check_ok_elems h⟩

/-! ## Lemmas about the argument-list checker -/

theorem checkAll_ok_mem {objs : List PyObj} {t : PyType} {u : Unit}
    (h : (checkAllObjects objs t).1 = .ok u) :
    ∀ o ∈ objs, o.isIterable = true ∧ ∀ x ∈ o.elems, isinstance x t = true := by
  induction objs with
  | nil => intro o ho; cases ho
  | cons o rest ih =>
      intro o' ho'
      unfold checkAllObjects at h
      rcases hE : check_object_compatibility o t with ⟨v, o₂⟩
      rw [hE] at h
      cases v with
      | error e => simp at h
      | ok w =>
          have hfst : (check_object_compatibility o t).1 = .ok w := by rw [hE]
          rcases List.mem_cons.mp ho' with h1 | h1
          · subst h1
            exact ⟨check_ok_iterable hfst, check_ok_elems hfst⟩
          · have : (checkAllObjects rest t).1 = .ok u := by
              rcases hR : checkAllObjects rest t with ⟨v₂, rest₂⟩
              rw [hR] at h
              simp at h
              exact h
            exact ih this o' h1


theorem checkAll_ok_of {objs : List PyObj} {t : PyType}
    (h1 : ∀ o ∈ objs, o.isIterable = true)
    (h2 : ∀ o ∈ objs, ∀ x ∈ o.elems, isinstance x t = true) :
    (checkAllObjects objs t).1 = .ok () := by
  induction objs with
  | nil => rfl
  | cons o rest ih =>
      unfold checkAllObjects
      rcases hE : check_object_compatibility o t with ⟨v, o₂⟩
      have hfst : (check_object_compatibility o t).1 = .ok () :=
        check_ok_of (h1 o (List.mem_cons_self o rest))
          (h2 o (List.mem_cons_self o rest))
      rw [hE] at hfst
      simp only at hfst
      subst hfst
      have hrest := ih (fun o ho => h1 o (List.mem_cons_of_mem _ ho))
        (fun o ho => h2 o (List.mem_cons_of_mem _ ho))
      rcases hR : checkAllObjects rest t with ⟨v₂, rest₂⟩
      rw [hR] at hrest
      simp only at hrest
      subst hrest
      rfl

theorem checkAll_snd_of_no_gen {objs : List PyObj} (t : PyType)
    (h : ∀ o ∈ objs, o.isGen = false) :
    (checkAllObjects objs t).2 = objs := by
  induction objs with
  | nil => rfl
  | cons o rest ih =>
      unfold checkAllObjects
      rcases hE : check_object_compatibility o t with ⟨v, o₂⟩
      have hsnd : (check_object_compatibility o t).2 = o :=
        check_snd_of_not_gen t (h o (List.mem_cons_self o rest))
      rw [hE] at hsnd
      simp only at hsnd
      subst hsnd
      have hrest := ih (fun o ho => h o (List.mem_cons_of_mem _ ho))
      cases v with
      | error e => simp
      | ok w =>
          rcases hR : checkAllObjects rest t with ⟨v₂, rest₂⟩
          rw [hR] at hrest
          simp only at hrest
          subst hrest
          simp

/-- After a successful argument-list check every post-iteration argument
is iterable with only compatible elements. -/
theorem checkAll_snd_ok {objs : List PyObj} {t : PyType} {u : Unit}
    (h : (checkAllObjects objs t).1 = .ok u) :
    ∀ o' ∈ (checkAllObjects objs t).2,
      o'.isIterable = true ∧ ∀ x ∈ o'.elems, isinstance x t = true := by
  induction objs with
  | nil => intro o ho; cases ho
  | cons o rest ih =>
      unfold checkAllObjects at h ⊢
      rcases hE : check_object_compatibility o t with ⟨v, o₂⟩
      rw [hE] at h
      cases v with
      | error e => simp at h
      | ok w =>
          have hfst : (check_object_compatibility o t).1 = .ok w := by rw [hE]
          have hhead := check_snd_ok hfst
          rw [hE] at hhead
          simp only at hhead
          rcases hR : checkAllObjects rest t with ⟨v₂, rest₂⟩
          rw [hR] at h
          simp only at h
          subst h
          have htail := ih (by rw [hR])
          rw [hR] at htail
          simp only at htail
          intro o' ho'
          simp only [List.mem_cons] at ho'
          rcases ho' with h1 | h1
          · subst h1; exact hhead
          · exact htail o' h1

/-! ## Lemmas about generator unpacking -/

theorem unpack_no_gen (objs : List PyObj) :
    ∀ o ∈ unpack_generators objs, o.isGen = false := by
  intro o ho
  unfold unpack_generators at ho
  rcases List.mem_map.mp ho with ⟨o₀, _, heq⟩
  subst heq
  cases o₀ <;> rfl

theorem unpack_eq_self_of_no_gen {objs : List PyObj}
    (h : contains_generators objs = false) : unpack_generators objs = objs := by
  unfold contains_generators at h
  rw [List.any_eq_false] at h
  unfold unpack_generators
  induction objs with
  | nil => rfl
  | cons o rest ih =>
      have hrest := ih (fun o ho => h o (List.mem_cons_of_mem _ ho))
      have hhead := h o (List.mem_cons_self o rest)
      cases o with
      | genObj xs => simp [PyObj.isGen] at hhead
      | scalar v => simpa using hrest
      | iterObj xs => simpa using hrest
      | setObj xs => simpa using hrest

theorem contains_unpack_false (objs : List PyObj) :
    contains_generators (unpack_generators objs) = false := by
  unfold contains_generators
  rw [List.any_eq_false]
  intro o ho
  rw [unpack_no_gen objs o ho]
  simp

theorem unpack_elems (objs : List PyObj) :
    (unpack_generators objs).map PyObj.elems = objs.map PyObj.elems := by
  unfold unpack_generators
  rw [List.map_map]
  apply List.map_congr_left
  intro o _
  cases o <;> rfl

theorem unpack_iterable {objs : List PyObj} (h : ∀ o ∈ objs, o.isIterable = true) :
    ∀ o ∈ unpack_generators objs, o.isIterable = true := by
  intro o ho
  rcases List.mem_map.mp ho with ⟨o₀, ho₀, heq⟩
  subst heq
  cases o₀ <;> simp_all [PyObj.isIterable]

theorem mem_unpack_of_gen {objs : List PyObj} {xs : List PyVal}
    (h : PyObj.genObj xs ∈ objs) : PyObj.iterObj xs ∈ unpack_generators objs := by
  unfold unpack_generators
  exact List.mem_map.mpr ⟨.genObj xs, h, rfl⟩

/-! ## Lemmas about the built-in set algorithms -/

theorem foldl_sdiff_subset (base : Finset PyVal) (args : List PyObj) :
    args.foldl (fun acc o => acc \ o.elems.toFinset) base ⊆ base := by
  induction args generalizing base with
  | nil => simp
  | cons o rest ih =>
      simp only [List.foldl_cons]
      exact (ih (base \ o.elems.toFinset)).trans Finset.sdiff_subset

theorem foldl_inter_subset (base : Finset PyVal) (args : List PyObj) :
    args.foldl (fun acc o => acc ∩ o.elems.toFinset) base ⊆ base := by
  induction args generalizing base with
  | nil => simp
  | cons o rest ih =>
      simp only [List.foldl_cons]
      exact (ih (base ∩ o.elems.toFinset)).trans Finset.inter_subset_left

theorem mem_foldl_union {args : List PyObj} {base : Finset PyVal} {x : PyVal} :
    x ∈ args.foldl (fun acc o => acc ∪ o.elems.toFinset) base ↔
      x ∈ base ∨ ∃ o ∈ args, x ∈ o.elems := by
  induction args generalizing base with
  | nil => simp
  | cons o rest ih =>
      simp only [List.foldl_cons, ih, Finset.mem_union, List.mem_toFinset,
        List.mem_cons]
      constructor
      · rintro ((h | h) | ⟨o', ho', hx⟩)
        · exact Or.inl h
        · exact Or.inr ⟨o, Or.inl rfl, h⟩
        · exact Or.inr ⟨o', Or.inr ho', hx⟩
      · rintro (h | ⟨o', (rfl | ho'), hx⟩)
        · exact Or.inl (Or.inl h)
        · exact Or.inl (Or.inr hx)
        · exact Or.inr ⟨o', ho', hx⟩

theorem mem_symmDiffSet {a b : Finset PyVal} {x : PyVal} :
    x ∈ symmDiffSet a b ↔ (x ∈ a ∧ x ∉ b) ∨ (x ∈ b ∧ x ∉ a) := by
  simp [symmDiffSet, Finset.mem_union, Finset.mem_sdiff]

/-! ## Inversion lemmas for the built-in algorithms -/

theorem builtinDifference_ok {base : Finset PyVal} {args : List PyObj}
    {xs : Finset PyVal} (h : builtinDifference base args = .ok xs) :
    xs = args.foldl (fun acc o => acc \ o.elems.toFinset) base := by
  unfold builtinDifference at h
  split at h
  · exact (Except.ok.inj h).symm
  · simp at h

theorem builtinIntersection_ok {base : Finset PyVal} {args : List PyObj}
    {xs : Finset PyVal} (h : builtinIntersection base args = .ok xs) :
    xs = args.foldl (fun acc o => acc ∩ o.elems.toFinset) base := by
  unfold builtinIntersection at h
  split at h
  · exact (Except.ok.inj h).symm
  · simp at h

theorem builtinUnion_ok {base : Finset PyVal} {args : List PyObj}
    {xs : Finset PyVal} (h : builtinUnion base args = .ok xs) :
    xs = args.foldl (fun acc o => acc ∪ o.elems.toFinset) base := by
  unfold builtinUnion at h
  split at h
  · exact (Except.ok.inj h).symm
  · simp at h

theorem builtinSymmDiff_ok {base : Finset PyVal} {v : PyObj}
    {xs : Finset PyVal} (h : builtinSymmDiff base v = .ok xs) :
    xs = symmDiffSet base v.elems.toFinset := by
  unfold builtinSymmDiff at h
  split at h
  · exact (Except.ok.inj h).symm
  · simp at h

theorem builtinSubOp_ok {base : Finset PyVal} {v : PyObj} {xs : Finset PyVal}
    (h : builtinSubOp base v = .ok xs) :
    ∃ ys : List PyVal, v = .setObj ys ∧ xs = base \ ys.toFinset := by
  unfold builtinSubOp at h
  cases v <;> simp at h
  exact ⟨_, rfl, h.symm⟩

theorem builtinAndOp_ok {base : Finset PyVal} {v : PyObj} {xs : Finset PyVal}
    (h : builtinAndOp base v = .ok xs) :
    ∃ ys : List PyVal, v = .setObj ys ∧ xs = base ∩ ys.toFinset := by
  unfold builtinAndOp at h
  cases v <;> simp at h
  exact ⟨_, rfl, h.symm⟩

theorem builtinOrOp_ok {base : Finset PyVal} {v : PyObj} {xs : Finset PyVal}
    (h : builtinOrOp base v = .ok xs) :
    ∃ ys : List PyVal, v = .setObj ys ∧ xs = base ∪ ys.toFinset := by
  unfold builtinOrOp at h
  cases v <;> simp at h
  exact ⟨_, rfl, h.symm⟩

theorem builtinXorOp_ok {base : Finset PyVal} {v : PyObj} {xs : Finset PyVal}
    (h : builtinXorOp base v = .ok xs) :
    ∃ ys : List PyVal, v = .setObj ys ∧ xs = symmDiffSet base ys.toFinset := by
  unfold builtinXorOp at h
  cases v <;> simp at h
  exact ⟨_, rfl, h.symm⟩

/-! ## Characterization of the `TypedFrozenset` derivations -/

theorem difference_ok {s : TypedFrozenset} {args : List PyObj}
    (h : ∀ o ∈ args, o.isIterable = true) :
    s.difference args =
      .ok (s.freshFrom (args.foldl (fun acc o => acc \ o.elems.toFinset) s.items)) := by
  unfold TypedFrozenset.difference builtinDifference
  rw [List.all_eq_true.mpr h]
  simp

theorem intersection_ok {s : TypedFrozenset} {args : List PyObj}
    (h : ∀ o ∈ args, o.isIterable = true) :
    s.intersection args =
      .ok (s.freshFrom (args.foldl (fun acc o => acc ∩ o.elems.toFinset) s.items)) := by
  unfold TypedFrozenset.intersection builtinIntersection
  rw [List.all_eq_true.mpr h]
  simp

theorem difference_err {s : TypedFrozenset} {args : List PyObj} {e : PyErr}
    (h : s.difference args = .error e) : e = .nativeError := by
  unfold TypedFrozenset.difference builtinDifference at h
  by_cases hc : args.all PyObj.isIterable = true
  · rw [if_pos hc] at h
    simp at h
  · rw [if_neg hc] at h
    simp at h
    exact h.symm

theorem intersection_err {s : TypedFrozenset} {args : List PyObj} {e : PyErr}
    (h : s.intersection args = .error e) : e = .nativeError := by
  unfold TypedFrozenset.intersection builtinIntersection at h
  by_cases hc : args.all PyObj.isIterable = true
  · rw [if_pos hc] at h
    simp at h
  · rw [if_neg hc] at h
    simp at h
    exact h.symm

theorem sub_op_ok (s : TypedFrozenset) (xs : List PyVal) :
    s.sub_op (.setObj xs) = .ok (s.freshFrom (s.items \ xs.toFinset)) := rfl

theorem and_op_ok (s : TypedFrozenset) (xs : List PyVal) :
    s.and_op (.setObj xs) = .ok (s.freshFrom (s.items ∩ xs.toFinset)) := rfl

theorem sub_op_err {s : TypedFrozenset} {v : PyObj} {e : PyErr}
    (h : s.sub_op v = .error e) : e = .nativeError := by
  unfold TypedFrozenset.sub_op builtinSubOp at h
  cases v <;> simp at h <;> exact h.symm

theorem and_op_err {s : TypedFrozenset} {v : PyObj} {e : PyErr}
    (h : s.and_op v = .error e) : e = .nativeError := by
  unfold TypedFrozenset.and_op builtinAndOp at h
  cases v <;> simp at h <;> exact h.symm

theorem symm_diff_gen_eq_iter (s : TypedFrozenset) (xs : List PyVal) :
    s.symmetric_difference (.genObj xs) = s.symmetric_difference (.iterObj xs) :=
  rfl

theorem symm_diff_ok_of_not_gen {s : TypedFrozenset} {v : PyObj}
    (hg : v.isGen = false) (hit : v.isIterable = true)
    (hc : ∀ x ∈ v.elems, isinstance x s.i_type = true) :
    s.symmetric_difference v =
      .ok (s.freshFrom (symmDiffSet s.items v.elems.toFinset)) := by
  unfold TypedFrozenset.symmetric_difference
  rw [hg]
  simp only [Bool.false_eq_true, if_false]
  rw [check_eq_of_ok hit hc hg]
  simp [builtinSymmDiff, hit]

theorem symm_diff_ok {s : TypedFrozenset} {v : PyObj}
    (hit : v.isIterable = true)
    (hc : ∀ x ∈ v.elems, isinstance x s.i_type = true) :
    s.symmetric_difference v =
      .ok (s.freshFrom (symmDiffSet s.items v.elems.toFinset)) := by
  cases v with
  | genObj xs =>
      rw [symm_diff_gen_eq_iter]
      exact symm_diff_ok_of_not_gen rfl rfl hc
  | scalar w => exact symm_diff_ok_of_not_gen rfl hit hc
  | iterObj xs => exact symm_diff_ok_of_not_gen rfl rfl hc
  | setObj xs => exact symm_diff_ok_of_not_gen rfl rfl hc

theorem symm_diff_err_not_iterable {s : TypedFrozenset} {v : PyObj}
    (h : v.isIterable = false) :
    s.symmetric_difference v = .error .iterableExpectedError := by
  have hg : v.isGen = false := by
    cases v with
    | genObj xs => simp [PyObj.isIterable] at h
    | scalar w => rfl
    | iterObj xs => simp [PyObj.isIterable] at h
    | setObj xs => simp [PyObj.isIterable] at h
  unfold TypedFrozenset.symmetric_difference
  rw [hg]
  simp only [Bool.false_eq_true, if_false]
  rcases hE : check_object_compatibility v s.i_type with ⟨verdict, v'⟩
  have : verdict = .error .iterableExpectedError := by
    have h1 := check_err_of_not_iterable (t := s.i_type) h
    rw [hE] at h1
    exact h1
  subst this
  simp

theorem symm_diff_err_bad_elem {s : TypedFrozenset} {v : PyObj}
    (hit : v.isIterable = true)
    (hb : v.elems.all (fun x => isinstance x s.i_type) = false) :
    s.symmetric_difference v = .error .typeRestrictionError := by
  have key : ∀ w : PyObj, w.isGen = false → w.isIterable = true →
      w.elems.all (fun x => isinstance x s.i_type) = false →
      s.symmetric_difference w = .error .typeRestrictionError := by
    intro w hg hwit hwb
    unfold TypedFrozenset.symmetric_difference
    rw [hg]
    simp only [Bool.false_eq_true, if_false]
    rcases hE : check_object_compatibility w s.i_type with ⟨verdict, w'⟩
    have : verdict = .error .typeRestrictionError := by
      have h1 := check_err_of_bad_elem hwit hwb
      rw [hE] at h1
      exact h1
    subst this
    simp
  cases v with
  | genObj xs =>
      rw [symm_diff_gen_eq_iter]
      exact key (.iterObj xs) rfl rfl hb
  | scalar w => exact key _ rfl hit hb
  | iterObj xs => exact key _ rfl rfl hb
  | setObj xs => exact key _ rfl rfl hb

theorem symm_diff_ok_inv_aux {s : TypedFrozenset} {w : PyObj} {r : TypedFrozenset}
    (hg : w.isGen = false) (h : s.symmetric_difference w = .ok r) :
    r.ident = s.ident + 1 ∧ r.i_type = s.i_type ∧
      ∀ x ∈ r.items, x ∈ s.items ∨ isinstance x s.i_type = true := by
  unfold TypedFrozenset.symmetric_difference at h
  rw [hg] at h
  simp only [Bool.false_eq_true, if_false] at h
  rcases hE : check_object_compatibility w s.i_type with ⟨verdict, w'⟩
  rw [hE] at h
  cases verdict with
  | error e => simp at h
  | ok u =>
      have hfst : (check_object_compatibility w s.i_type).1 = .ok u := by rw [hE]
      have hsnd := (check_snd_ok hfst).2
      rw [hE] at hsnd
      simp only at hsnd
      have h2 : (match builtinSymmDiff s.items w' with
          | Except.error e => (Except.error e : Except PyErr TypedFrozenset)
          | Except.ok xs => Except.ok (s.freshFrom xs)) = Except.ok r := h
      rcases hB : builtinSymmDiff s.items w' with e | xs
      · rw [hB] at h2; simp at h2
      · rw [hB] at h2
        simp only at h2
        have hxs := builtinSymmDiff_ok hB
        have hr : r = s.freshFrom xs := by
          cases h2
          rfl
        subst hr
        refine ⟨rfl, rfl, ?_⟩
        intro x hx
        simp only [TypedFrozenset.freshFrom] at hx
        rw [hxs] at hx
        rcases mem_symmDiffSet.mp hx with ⟨h1, _⟩ | ⟨h1, _⟩
        · exact Or.inl h1
        · exact Or.inr (hsnd x (List.mem_toFinset.mp h1))

theorem symm_diff_ok_inv {s : TypedFrozenset} {v : PyObj} {r : TypedFrozenset}
    (h : s.symmetric_difference v = .ok r) :
    r.ident = s.ident + 1 ∧ r.i_type = s.i_type ∧
      ∀ x ∈ r.items, x ∈ s.items ∨ isinstance x s.i_type = true := by
  cases v with
  | genObj xs =>
      rw [symm_diff_gen_eq_iter] at h
      exact symm_diff_ok_inv_aux (w := PyObj.iterObj xs) rfl h
  | scalar w => exact symm_diff_ok_inv_aux (w := PyObj.scalar w) rfl h
  | iterObj xs => exact symm_diff_ok_inv_aux (w := PyObj.iterObj xs) rfl h
  | setObj xs => exact symm_diff_ok_inv_aux (w := PyObj.setObj xs) rfl h

/-! ## Characterization of `TypedFrozenset.union` -/

theorem foldl_union_unpack (base : Finset PyVal) (args : List PyObj) :
    (unpack_generators args).foldl (fun acc o => acc ∪ o.elems.toFinset) base =
      args.foldl (fun acc o => acc ∪ o.elems.toFinset) base := by
  induction args generalizing base with
  | nil => rfl
  | cons o rest ih =>
      cases o with
      | genObj xs => simpa [unpack_generators, PyObj.elems] using ih (base ∪ xs.toFinset)
      | scalar v => simpa [unpack_generators] using ih (base ∪ (PyObj.scalar v).elems.toFinset)
      | iterObj xs => simpa [unpack_generators] using ih (base ∪ xs.toFinset)
      | setObj xs => simpa [unpack_generators, PyObj.elems] using ih (base ∪ xs.toFinset)

theorem unpack_elems_mem {args : List PyObj} {o' : PyObj}
    (h : o' ∈ unpack_generators args) : ∃ o ∈ args, o'.elems = o.elems := by
  unfold unpack_generators at h
  rcases List.mem_map.mp h with ⟨o, ho, heq⟩
  refine ⟨o, ho, ?_⟩
  subst heq
  cases o <;> rfl

theorem union_eq_unpack (s : TypedFrozenset) (args : List PyObj) :
    s.union args = s.union (unpack_generators args) := by
  unfold TypedFrozenset.union
  by_cases hg : contains_generators args = true
  · rw [hg, contains_unpack_false args]
    simp
  · rw [Bool.not_eq_true] at hg
    rw [hg, contains_unpack_false args, unpack_eq_self_of_no_gen hg]
    rfl

theorem union_ok_no_gen {s : TypedFrozenset} {args : List PyObj}
    (hg : ∀ o ∈ args, o.isGen = false)
    (h1 : ∀ o ∈ args, o.isIterable = true)
    (h2 : ∀ o ∈ args, ∀ x ∈ o.elems, isinstance x s.i_type = true) :
    s.union args =
      .ok (s.freshFrom (args.foldl (fun acc o => acc ∪ o.elems.toFinset) s.items)) := by
  have hc : contains_generators args = false := by
    unfold contains_generators
    rw [List.any_eq_false]
    intro o ho
    rw [hg o ho]
    simp
  unfold TypedFrozenset.union
  rw [hc]
  simp only [Bool.false_eq_true, if_false]
  have hA : checkAllObjects args s.i_type = (.ok (), args) := by
    have f := checkAll_ok_of h1 h2
    have sn := checkAll_snd_of_no_gen s.i_type hg
    calc checkAllObjects args s.i_type
        = ((checkAllObjects args s.i_type).1, (checkAllObjects args s.i_type).2) := rfl
      _ = (.ok (), args) := by rw [f, sn]
  rw [hA]
  simp [builtinUnion, List.all_eq_true.mpr h1]

theorem union_ok {s : TypedFrozenset} {args : List PyObj}
    (h1 : ∀ o ∈ args, o.isIterable = true)
    (h2 : ∀ o ∈ args, ∀ x ∈ o.elems, isinstance x s.i_type = true) :
    s.union args =
      .ok (s.freshFrom (args.foldl (fun acc o => acc ∪ o.elems.toFinset) s.items)) := by
  rw [union_eq_unpack]
  have h2' : ∀ o ∈ unpack_generators args, ∀ x ∈ o.elems,
      isinstance x s.i_type = true := by
    intro o ho x hx
    rcases unpack_elems_mem ho with ⟨o₀, ho₀, he⟩
    rw [he] at hx
    exact h2 o₀ ho₀ x hx
  rw [union_ok_no_gen (unpack_no_gen args) (unpack_iterable h1) h2']
  rw [foldl_union_unpack]

theorem union_err_not_iterable {s : TypedFrozenset} {v : PyObj}
    (h : v.isIterable = false) :
    s.union [v] = .error .iterableExpectedError := by
  have hg : v.isGen = false := by
    cases v with
    | genObj xs => simp [PyObj.isIterable] at h
    | scalar w => rfl
    | iterObj xs => simp [PyObj.isIterable] at h
    | setObj xs => simp [PyObj.isIterable] at h
  have hc : contains_generators [v] = false := by
    simp [contains_generators, hg]
  unfold TypedFrozenset.union
  rw [hc]
  simp only [Bool.false_eq_true, if_false]
  have hA : (checkAllObjects [v] s.i_type).1 = .error .iterableExpectedError := by
    unfold checkAllObjects
    rcases hE : check_object_compatibility v s.i_type with ⟨verdict, v'⟩
    have h1 := check_err_of_not_iterable (t := s.i_type) h
    rw [hE] at h1
    simp only at h1
    subst h1
    rfl
  rcases hP : checkAllObjects [v] s.i_type with ⟨verdict, objs'⟩
  rw [hP] at hA
  simp only at hA
  subst hA
  simp [hP]

theorem union_err_bad_elem {s : TypedFrozenset} {v : PyObj}
    (hit : v.isIterable = true)
    (hb : v.elems.all (fun x => isinstance x s.i_type) = false) :
    s.union [v] = .error .typeRestrictionError := by
  have key : ∀ w : PyObj, w.isGen = false → w.isIterable = true →
      w.elems.all (fun x => isinstance x s.i_type) = false →
      s.union [w] = .error .typeRestrictionError := by
    intro w hg hwit hwb
    have hc : contains_generators [w] = false := by
      simp [contains_generators, hg]
    unfold TypedFrozenset.union
    rw [hc]
    simp only [Bool.false_eq_true, if_false]
    have hA : (checkAllObjects [w] s.i_type).1 = .error .typeRestrictionError := by
      unfold checkAllObjects
      rcases hE : check_object_compatibility w s.i_type with ⟨verdict, w'⟩
      have h1 := check_err_of_bad_elem hwit hwb
      rw [hE] at h1
      simp only at h1
      subst h1
      rfl
    rcases hP : checkAllObjects [w] s.i_type with ⟨verdict, objs'⟩
    rw [hP] at hA
    simp only at hA
    subst hA
    simp [hP]
  cases v with
  | genObj xs =>
      have : s.union [PyObj.genObj xs] = s.union [PyObj.iterObj xs] := by
        rw [union_eq_unpack]
        rfl
      rw [this]
      exact key (.iterObj xs) rfl rfl hb
  | scalar w => exact key _ rfl hit hb
  | iterObj xs => exact key _ rfl rfl hb
  | setObj xs => exact key _ rfl rfl hb

theorem union_match_inv {s : TypedFrozenset} {A : List PyObj} {r : TypedFrozenset}
    (h : (match checkAllObjects A s.i_type with
          | (Except.error e, _) => (Except.error e : Except PyErr TypedFrozenset)
          | (Except.ok _, objs') =>
              match builtinUnion s.items objs' with
              | Except.error e => Except.error e
              | Except.ok xs => Except.ok (s.freshFrom xs)) = Except.ok r) :
    r.ident = s.ident + 1 ∧ r.i_type = s.i_type ∧
      ∀ x ∈ r.items, x ∈ s.items ∨ isinstance x s.i_type = true := by
  rcases hA : checkAllObjects A s.i_type with ⟨verdict, objs'⟩
  rw [hA] at h
  cases verdict with
  | error e => simp at h
  | ok u =>
      have hfst : (checkAllObjects A s.i_type).1 = .ok u := by rw [hA]
      have hsnd := checkAll_snd_ok hfst
      rw [hA] at hsnd
      simp only at hsnd
      have h2 : (match builtinUnion s.items objs' with
          | Except.error e => (Except.error e : Except PyErr TypedFrozenset)
          | Except.ok xs => Except.ok (s.freshFrom xs)) = Except.ok r := h
      rcases hB : builtinUnion s.items objs' with e | xs
      · rw [hB] at h2; simp at h2
      · rw [hB] at h2
        simp only at h2
        have hxs := builtinUnion_ok hB
        have hr : r = s.freshFrom xs := by
          cases h2
          rfl
        subst hr
        refine ⟨rfl, rfl, ?_⟩
        intro x hx
        simp only [TypedFrozenset.freshFrom] at hx
        rw [hxs] at hx
        rcases mem_foldl_union.mp hx with h1 | ⟨o', ho', hxo⟩
        · exact Or.inl h1
        · exact Or.inr ((hsnd o' ho').2 x hxo)

theorem union_ok_inv {s : TypedFrozenset} {args : List PyObj} {r : TypedFrozenset}
    (h : s.union args = .ok r) :
    r.ident = s.ident + 1 ∧ r.i_type = s.i_type ∧
      ∀ x ∈ r.items, x ∈ s.items ∨ isinstance x s.i_type = true := by
  unfold TypedFrozenset.union at h
  by_cases hg : contains_generators args = true
  · rw [hg] at h
    simp only [if_true] at h
    exact union_match_inv h
  · rw [Bool.not_eq_true] at hg
    rw [hg] at h
    simp only [Bool.false_eq_true, if_false] at h
    exact union_match_inv h

/-! ## Characterization of `TypedFrozenset.__or__` / `__xor__` -/

theorem or_op_ok {s : TypedFrozenset} {xs : List PyVal}
    (hc : ∀ x ∈ xs, isinstance x s.i_type = true) :
    s.or_op (.setObj xs) = .ok (s.freshFrom (s.items ∪ xs.toFinset)) := by
  unfold TypedFrozenset.or_op
  rw [check_eq_of_ok (o := PyObj.setObj xs) rfl hc rfl]
  rfl

theorem xor_op_ok {s : TypedFrozenset} {xs : List PyVal}
    (hc : ∀ x ∈ xs, isinstance x s.i_type = true) :
    s.xor_op (.setObj xs) = .ok (s.freshFrom (symmDiffSet s.items xs.toFinset)) := by
  unfold TypedFrozenset.xor_op
  rw [check_eq_of_ok (o := PyObj.setObj xs) rfl hc rfl]
  rfl

theorem or_op_err_not_iterable {s : TypedFrozenset} {v : PyObj}
    (h : v.isIterable = false) :
    s.or_op v = .error .iterableExpectedError := by
  unfold TypedFrozenset.or_op
  rcases hE : check_object_compatibility v s.i_type with ⟨verdict, v'⟩
  have h1 := check_err_of_not_iterable (t := s.i_type) h
  rw [hE] at h1
  simp only at h1
  subst h1
  rfl

theorem xor_op_err_not_iterable {s : TypedFrozenset} {v : PyObj}
    (h : v.isIterable = false) :
    s.xor_op v = .error .iterableExpectedError := by
  unfold TypedFrozenset.xor_op
  rcases hE : check_object_compatibility v s.i_type with ⟨verdict, v'⟩
  have h1 := check_err_of_not_iterable (t := s.i_type) h
  rw [hE] at h1
  simp only at h1
  subst h1
  rfl

theorem or_op_err_bad_elem {s : TypedFrozenset} {v : PyObj}
    (hit : v.isIterable = true)
    (hb : v.elems.all (fun x => isinstance x s.i_type) = false) :
    s.or_op v = .error .typeRestrictionError := by
  unfold TypedFrozenset.or_op
  rcases hE : check_object_compatibility v s.i_type with ⟨verdict, v'⟩
  have h1 := check_err_of_bad_elem hit hb
  rw [hE] at h1
  simp only at h1
  subst h1
  rfl

theorem xor_op_err_bad_elem {s : TypedFrozenset} {v : PyObj}
    (hit : v.isIterable = true)
    (hb : v.elems.all (fun x => isinstance x s.i_type) = false) :
    s.xor_op v = .error .typeRestrictionError := by
  unfold TypedFrozenset.xor_op
  rcases hE : check_object_compatibility v s.i_type with ⟨verdict, v'⟩
  have h1 := check_err_of_bad_elem hit hb
  rw [hE] at h1
  simp only at h1
  subst h1
  rfl

theorem or_op_ok_inv {s : TypedFrozenset} {v : PyObj} {r : TypedFrozenset}
    (h : s.or_op v = .ok r) :
    r.ident = s.ident + 1 ∧ r.i_type = s.i_type ∧
      ∀ x ∈ r.items, x ∈ s.items ∨ isinstance x s.i_type = true := by
  unfold TypedFrozenset.or_op at h
  rcases hE : check_object_compatibility v s.i_type with ⟨verdict, v'⟩
  rw [hE] at h
  cases verdict with
  | error e => simp at h
  | ok u =>
      have hfst : (check_object_compatibility v s.i_type).1 = .ok u := by rw [hE]
      have hsnd := (check_snd_ok hfst).2
      rw [hE] at hsnd
      simp only at hsnd
      have h2 : (match builtinOrOp s.items v' with
          | Except.error e => (Except.error e : Except PyErr TypedFrozenset)
          | Except.ok xs => Except.ok (s.freshFrom xs)) = Except.ok r := h
      rcases hB : builtinOrOp s.items v' with e | xs
      · rw [hB] at h2; simp at h2
      · rw [hB] at h2
        simp only at h2
        rcases builtinOrOp_ok hB with ⟨ys, hv', hxs⟩
        have hr : r = s.freshFrom xs := by
          cases h2
          rfl
        subst hr
        refine ⟨rfl, rfl, ?_⟩
        intro x hx
        simp only [TypedFrozenset.freshFrom] at hx
        rw [hxs] at hx
        rcases Finset.mem_union.mp hx with h1 | h1
        · exact Or.inl h1
        · refine Or.inr (hsnd x ?_)
          rw [hv']
          exact List.mem_toFinset.mp h1

theorem xor_op_ok_inv {s : TypedFrozenset} {v : PyObj} {r : TypedFrozenset}
    (h : s.xor_op v = .ok r) :
    r.ident = s.ident + 1 ∧ r.i_type = s.i_type ∧
      ∀ x ∈ r.items, x ∈ s.items ∨ isinstance x s.i_type = true := by
  unfold TypedFrozenset.xor_op at h
  rcases hE : check_object_compatibility v s.i_type with ⟨verdict, v'⟩
  rw [hE] at h
  cases verdict with
  | error e => simp at h
  | ok u =>
      have hfst : (check_object_compatibility v s.i_type).1 = .ok u := by rw [hE]
      have hsnd := (check_snd_ok hfst).2
      rw [hE] at hsnd
      simp only at hsnd
      have h2 : (match builtinXorOp s.items v' with
          | Except.error e => (Except.error e : Except PyErr TypedFrozenset)
          | Except.ok xs => Except.ok (s.freshFrom xs)) = Except.ok r := h
      rcases hB : builtinXorOp s.items v' with e | xs
      · rw [hB] at h2; simp at h2
      · rw [hB] at h2
        simp only at h2
        rcases builtinXorOp_ok hB with ⟨ys, hv', hxs⟩
        have hr : r = s.freshFrom xs := by
          cases h2
          rfl
        subst hr
        refine ⟨rfl, rfl, ?_⟩
        intro x hx
        simp only [TypedFrozenset.freshFrom] at hx
        rw [hxs] at hx
        rcases mem_symmDiffSet.mp hx with ⟨h1, _⟩ | ⟨h1, _⟩
        · exact Or.inl h1
        · refine Or.inr (hsnd x ?_)
          rw [hv']
          exact List.mem_toFinset.mp h1

/-! ## Lemmas about materialized (drained) arguments -/

theorem drained_elems (o : PyObj) :
    (if o.isGen then PyObj.iterObj o.elems else o).elems = o.elems := by
  cases o <;> rfl

theorem drained_not_gen (o : PyObj) :
    (if o.isGen then PyObj.iterObj o.elems else o).isGen = false := by
  cases o <;> rfl

theorem drained_iterable {o : PyObj} (h : o.isIterable = true) :
    (if o.isGen then PyObj.iterObj o.elems else o).isIterable = true := by
  cases o <;> simp_all [PyObj.isGen, PyObj.isIterable]

theorem drained_check_ok_inv {o : PyObj} {t : PyType} {u : Unit}
    (h : (check_object_compatibility
        (if o.isGen then PyObj.iterObj o.elems else o) t).1 = .ok u) :
    o.isIterable = true ∧ ∀ x ∈ o.elems, isinstance x t = true := by
  have h1 := check_ok_iterable h
  have h2 := check_ok_elems h
  rw [drained_elems] at h2
  refine ⟨?_, h2⟩
  cases o with
  | genObj xs => rfl
  | scalar v => simpa using h1
  | iterObj xs => rfl
  | setObj xs => rfl

theorem drained_check_ok_of {o : PyObj} {t : PyType}
    (h1 : o.isIterable = true) (h2 : ∀ x ∈ o.elems, isinstance x t = true) :
    (check_object_compatibility
        (if o.isGen then PyObj.iterObj o.elems else o) t).1 = .ok () := by
  apply check_ok_of (drained_iterable h1)
  rw [drained_elems]
  exact h2

/-! ## Characterization of the mutating operations -/

theorem append_spec (s : TypedList) (v : PyVal) :
    s.append v =
      if isinstance v s.i_type
      then (.ok (), ⟨s.ident, s.items ++ [v], s.i_type⟩)
      else (.error .typeRestrictionError, s) := by
  by_cases hv : isinstance v s.i_type = true
  · simp [TypedList.append, check_item_compatibility, hv]
  · rw [Bool.not_eq_true] at hv
    simp [TypedList.append, check_item_compatibility, hv]

theorem insert_spec (s : TypedList) (i : Nat) (v : PyVal) :
    s.insert i v =
      if isinstance v s.i_type
      then (.ok (), ⟨s.ident, s.items.take i ++ [v] ++ s.items.drop i, s.i_type⟩)
      else (.error .typeRestrictionError, s) := by
  by_cases hv : isinstance v s.i_type = true
  · simp [TypedList.insert, check_item_compatibility, hv]
  · rw [Bool.not_eq_true] at hv
    simp [TypedList.insert, check_item_compatibility, hv]

theorem add_spec (s : TypedSet) (v : PyVal) :
    s.add v =
      if isinstance v s.i_type
      then (.ok (), ⟨s.ident, insert v s.items, s.i_type⟩)
      else (.error .typeRestrictionError, s) := by
  by_cases hv : isinstance v s.i_type = true
  · simp [TypedSet.add, check_item_compatibility, hv]
  · rw [Bool.not_eq_true] at hv
    simp [TypedSet.add, check_item_compatibility, hv]


theorem drained_eq_of_not_iterable {o : PyObj} (h : o.isIterable = false) :
    (if o.isGen then PyObj.iterObj o.elems else o) = o := by
  cases o <;> simp_all [PyObj.isIterable, PyObj.isGen]

theorem setitem_index_spec (s : TypedList) (i : Nat) (v : PyVal) :
    s.setitem_index i v =
      if isinstance v s.i_type then
        (if i < s.items.length
         then (.ok (), ⟨s.ident, s.items.set i v, s.i_type⟩)
         else (.error .nativeError, s))
      else (.error .typeRestrictionError, s) := by
  by_cases hv : isinstance v s.i_type = true
  · simp [TypedList.setitem_index, check_item_compatibility, hv]
  · rw [Bool.not_eq_true] at hv
    simp [TypedList.setitem_index, check_item_compatibility, hv]

theorem extend_spec (s : TypedList) (o : PyObj) :
    s.extend o =
      if o.isIterable then
        (if o.elems.all (fun x => isinstance x s.i_type)
         then (.ok (), ⟨s.ident, s.items ++ o.elems, s.i_type⟩)
         else (.error .typeRestrictionError, s))
      else (.error .iterableExpectedError, s) := by
  unfold TypedList.extend
  by_cases hit : o.isIterable = true
  · rw [check_fst]
    simp only [drained_iterable hit, drained_elems, if_true, hit]
    by_cases hall : o.elems.all (fun x => isinstance x s.i_type) = true
    · simp [hall]
    · rw [Bool.not_eq_true] at hall
      simp [hall]
  · rw [Bool.not_eq_true] at hit
    rw [check_fst]
    simp [drained_eq_of_not_iterable hit, hit]

theorem setitem_slice_spec (s : TypedList) (a b : Nat) (o : PyObj) :
    s.setitem_slice a b o =
      if o.isIterable then
        (if o.elems.all (fun x => isinstance x s.i_type)
         then (.ok (),
           ⟨s.ident, s.items.take a ++ o.elems ++ s.items.drop (max a b), s.i_type⟩)
         else (.error .typeRestrictionError, s))
      else (.error .iterableExpectedError, s) := by
  unfold TypedList.setitem_slice
  by_cases hit : o.isIterable = true
  · rw [check_fst]
    simp only [drained_iterable hit, drained_elems, if_true, hit]
    by_cases hall : o.elems.all (fun x => isinstance x s.i_type) = true
    · simp [hall]
    · rw [Bool.not_eq_true] at hall
      simp [hall]
  · rw [Bool.not_eq_true] at hit
    rw [check_fst]
    simp [drained_eq_of_not_iterable hit, hit]

theorem ixor_spec (s : TypedSet) (o : PyObj) :
    s.ixor o =
      if o.isIterable then
        (if o.elems.all (fun x => isinstance x s.i_type)
         then (.ok (), ⟨s.ident, symmDiffSet s.items o.elems.toFinset, s.i_type⟩)
         else (.error .typeRestrictionError, s))
      else (.error .iterableExpectedError, s) := by
  unfold TypedSet.ixor
  by_cases hit : o.isIterable = true
  · rw [check_fst]
    simp only [drained_iterable hit, drained_elems, if_true, hit]
    by_cases hall : o.elems.all (fun x => isinstance x s.i_type) = true
    · simp [hall]
    · rw [Bool.not_eq_true] at hall
      simp [hall]
  · rw [Bool.not_eq_true] at hit
    rw [check_fst]
    simp [drained_eq_of_not_iterable hit, hit]

theorem unpack_member_good {objs : List PyObj} {t : PyType}
    (h : ∀ o' ∈ unpack_generators objs,
        o'.isIterable = true ∧ ∀ x ∈ o'.elems, isinstance x t = true) :
    ∀ o ∈ objs, o.isIterable = true ∧ ∀ x ∈ o.elems, isinstance x t = true := by
  intro o ho
  cases o with
  | genObj xs =>
      have hm : PyObj.iterObj xs ∈ unpack_generators objs := by
        unfold unpack_generators
        exact List.mem_map.mpr ⟨PyObj.genObj xs, ho, rfl⟩
      exact ⟨rfl, (h _ hm).2⟩
  | scalar v =>
      have hm : PyObj.scalar v ∈ unpack_generators objs := by
        unfold unpack_generators
        exact List.mem_map.mpr ⟨PyObj.scalar v, ho, rfl⟩
      exact h _ hm
  | iterObj xs =>
      have hm : PyObj.iterObj xs ∈ unpack_generators objs := by
        unfold unpack_generators
        exact List.mem_map.mpr ⟨PyObj.iterObj xs, ho, rfl⟩
      exact h _ hm
  | setObj xs =>
      have hm : PyObj.setObj xs ∈ unpack_generators objs := by
        unfold unpack_generators
        exact List.mem_map.mpr ⟨PyObj.setObj xs, ho, rfl⟩
      exact h _ hm

theorem update_cases (s : TypedSet) (objs : List PyObj) :
    ((s.update objs).2 = s ∧ ∃ e, (s.update objs).1 = Except.error e) ∨
    ((s.update objs).1 = Except.ok () ∧
      (∀ o ∈ objs, o.isIterable = true ∧
        ∀ x ∈ o.elems, isinstance x s.i_type = true) ∧
      (s.update objs).2.i_type = s.i_type ∧ (s.update objs).2.ident = s.ident ∧
      ∀ x ∈ (s.update objs).2.items,
        x ∈ s.items ∨ isinstance x s.i_type = true) := by
  by_cases hg : contains_generators objs = true
  all_goals
    first
    | (have hA : s.update objs =
          (match checkAllObjects (unpack_generators objs) s.i_type with
            | (Except.error e, _) => (Except.error e, s)
            | (Except.ok _, objs') =>
                (Except.ok (),
                  ⟨s.ident, objs'.foldl (fun acc o => acc ∪ o.elems.toFinset) s.items,
                    s.i_type⟩)) := by
        unfold TypedSet.update
        rw [hg]
        simp)
    | skip
  · rcases hP : checkAllObjects (unpack_generators objs) s.i_type with ⟨v, objs'⟩
    rw [hP] at hA
    cases v with
    | error e =>
        simp only at hA
        exact Or.inl ⟨by rw [hA], e, by rw [hA]⟩
    | ok u =>
        simp only at hA
        have hfst : (checkAllObjects (unpack_generators objs) s.i_type).1 = .ok u := by
          rw [hP]
        have hmem := checkAll_ok_mem hfst
        have hsnd := checkAll_snd_ok hfst
        rw [hP] at hsnd
        simp only at hsnd
        refine Or.inr ⟨by rw [hA], unpack_member_good hmem, by rw [hA], by rw [hA], ?_⟩
        rw [hA]
        intro x hx
        simp only at hx
        rcases mem_foldl_union.mp hx with h1 | ⟨o', ho', hxo⟩
        · exact Or.inl h1
        · exact Or.inr ((hsnd o' ho').2 x hxo)
  · rw [Bool.not_eq_true] at hg
    have hA : s.update objs =
        (match checkAllObjects objs s.i_type with
          | (Except.error e, _) => (Except.error e, s)
          | (Except.ok _, objs') =>
              (Except.ok (),
                ⟨s.ident, objs'.foldl (fun acc o => acc ∪ o.elems.toFinset) s.items,
                  s.i_type⟩)) := by
      unfold TypedSet.update
      rw [hg]
      simp
    rcases hP : checkAllObjects objs s.i_type with ⟨v, objs'⟩
    rw [hP] at hA
    cases v with
    | error e =>
        simp only at hA
        exact Or.inl ⟨by rw [hA], e, by rw [hA]⟩
    | ok u =>
        simp only at hA
        have hfst : (checkAllObjects objs s.i_type).1 = .ok u := by rw [hP]
        have hmem := checkAll_ok_mem hfst
        have hsnd := checkAll_snd_ok hfst
        rw [hP] at hsnd
        simp only at hsnd
        refine Or.inr ⟨by rw [hA], hmem, by rw [hA], by rw [hA], ?_⟩
        rw [hA]
        intro x hx
        simp only at hx
        rcases mem_foldl_union.mp hx with h1 | ⟨o', ho', hxo⟩
        · exact Or.inl h1
        · exact Or.inr ((hsnd o' ho').2 x hxo)

/-! ## Remaining inversion lemmas for the frozenset derivations -/

theorem difference_ok_inv {s : TypedFrozenset} {args : List PyObj}
    {r : TypedFrozenset} (h : s.difference args = .ok r) :
    r.ident = s.ident + 1 ∧ r.i_type = s.i_type ∧ r.items ⊆ s.items := by
  unfold TypedFrozenset.difference at h
  rcases hB : builtinDifference s.items args with e | xs
  · rw [hB] at h; simp at h
  · rw [hB] at h
    simp only at h
    have hxs := builtinDifference_ok hB
    have hr : r = s.freshFrom xs := by cases h; rfl
    subst hr
    refine ⟨rfl, rfl, ?_⟩
    show xs ⊆ s.items
    rw [hxs]
    exact foldl_sdiff_subset _ _

theorem intersection_ok_inv {s : TypedFrozenset} {args : List PyObj}
    {r : TypedFrozenset} (h : s.intersection args = .ok r) :
    r.ident = s.ident + 1 ∧ r.i_type = s.i_type ∧ r.items ⊆ s.items := by
  unfold TypedFrozenset.intersection at h
  rcases hB : builtinIntersection s.items args with e | xs
  · rw [hB] at h; simp at h
  · rw [hB] at h
    simp only at h
    have hxs := builtinIntersection_ok hB
    have hr : r = s.freshFrom xs := by cases h; rfl
    subst hr
    refine ⟨rfl, rfl, ?_⟩
    show xs ⊆ s.items
    rw [hxs]
    exact foldl_inter_subset _ _

theorem sub_op_ok_inv {s : TypedFrozenset} {v : PyObj} {r : TypedFrozenset}
    (h : s.sub_op v = .ok r) :
    r.ident = s.ident + 1 ∧ r.i_type = s.i_type ∧ r.items ⊆ s.items := by
  unfold TypedFrozenset.sub_op at h
  rcases hB : builtinSubOp s.items v with e | xs
  · rw [hB] at h; simp at h
  · rw [hB] at h
    simp only at h
    rcases builtinSubOp_ok hB with ⟨ys, hv, hxs⟩
    have hr : r = s.freshFrom xs := by cases h; rfl
    subst hr
    refine ⟨rfl, rfl, ?_⟩
    show xs ⊆ s.items
    rw [hxs]
    exact Finset.sdiff_subset

theorem and_op_ok_inv {s : TypedFrozenset} {v : PyObj} {r : TypedFrozenset}
    (h : s.and_op v = .ok r) :
    r.ident = s.ident + 1 ∧ r.i_type = s.i_type ∧ r.items ⊆ s.items := by
  unfold TypedFrozenset.and_op at h
  rcases hB : builtinAndOp s.items v with e | xs
  · rw [hB] at h; simp at h
  · rw [hB] at h
    simp only at h
    rcases builtinAndOp_ok hB with ⟨ys, hv, hxs⟩
    have hr : r = s.freshFrom xs := by cases h; rfl
    subst hr
    refine ⟨rfl, rfl, ?_⟩
    show xs ⊆ s.items
    rw [hxs]
    exact Finset.inter_subset_left

/-! ## Construction inversion lemmas -/

theorem validate_err {b : Bool} {r : Restriction} {e : PyErr}
    (h : validate_item_type b r = .error e) : e = .invalidTypeRestrictionError := by
  cases r with
  | rNotAType =>
      simp only [validate_item_type] at h
      exact (Except.error.inj h).symm
  | rType t =>
      simp only [validate_item_type] at h
      split at h
      · exact (Except.error.inj h).symm
      · simp at h

theorem fs_init_invalid {newId : Nat} {init : Option PyObj} {r : Restriction}
    (h : validate_item_type true r = .error .invalidTypeRestrictionError) :
    TypedFrozenset.init newId init r = .error .invalidTypeRestrictionError := by
  unfold TypedFrozenset.init
  rw [h]

theorem fslt_init_invalid {newId : Nat} {init : Option PyObj} {r : Restriction}
    (h : validate_item_type true r = .error .invalidTypeRestrictionError) :
    TypedFrozenset_lt.init newId init r = .error .invalidTypeRestrictionError := by
  unfold TypedFrozenset_lt.init
  rw [h]

theorem set_init_invalid {newId : Nat} {init : Option PyObj} {r : Restriction}
    (h : validate_item_type true r = .error .invalidTypeRestrictionError) :
    TypedSet.init newId init r = .error .invalidTypeRestrictionError := by
  unfold TypedSet.init
  rw [h]

theorem list_init_invalid {newId : Nat} {init : Option PyObj} {r : Restriction}
    (h : validate_item_type false r = .error .invalidTypeRestrictionError) :
    TypedList.init newId init r = .error .invalidTypeRestrictionError := by
  unfold TypedList.init
  rw [h]

theorem tuple_init_invalid {newId : Nat} {init : Option PyObj} {r : Restriction}
    (h : validate_item_type false r = .error .invalidTypeRestrictionError) :
    TypedTuple.init newId init r = .error .invalidTypeRestrictionError := by
  unfold TypedTuple.init
  rw [h]

theorem fs_init_ok_of {newId : Nat} {obj : PyObj} {t : PyType}
    (hh : t.isHashable = true) (hit : obj.isIterable = true)
    (hc : ∀ x ∈ obj.elems, isinstance x t = true) :
    TypedFrozenset.init newId (some obj) (.rType t) =
      .ok ⟨newId, obj.elems.toFinset, t⟩ := by
  unfold TypedFrozenset.init
  rw [show validate_item_type true (.rType t) = .ok t by
    simp [validate_item_type, hh]]
  simp only [drained_check_ok_of hit hc]

theorem set_init_ok_of {newId : Nat} {obj : PyObj} {t : PyType}
    (hh : t.isHashable = true) (hit : obj.isIterable = true)
    (hc : ∀ x ∈ obj.elems, isinstance x t = true) :
    TypedSet.init newId (some obj) (.rType t) =
      .ok ⟨newId, obj.elems.toFinset, t⟩ := by
  unfold TypedSet.init
  rw [show validate_item_type true (.rType t) = .ok t by
    simp [validate_item_type, hh]]
  simp only [drained_check_ok_of hit hc]

theorem list_init_ok_of {newId : Nat} {obj : PyObj} {t : PyType}
    (hit : obj.isIterable = true)
    (hc : ∀ x ∈ obj.elems, isinstance x t = true) :
    TypedList.init newId (some obj) (.rType t) = .ok ⟨newId, obj.elems, t⟩ := by
  unfold TypedList.init
  rw [show validate_item_type false (.rType t) = .ok t by
    simp [validate_item_type]]
  simp only [drained_check_ok_of hit hc]

theorem tuple_init_ok_of {newId : Nat} {obj : PyObj} {t : PyType}
    (hit : obj.isIterable = true)
    (hc : ∀ x ∈ obj.elems, isinstance x t = true) :
    TypedTuple.init newId (some obj) (.rType t) = .ok ⟨newId, obj.elems, t⟩ := by
  unfold TypedTuple.init
  rw [show validate_item_type false (.rType t) = .ok t by
    simp [validate_item_type]]
  simp only [drained_check_ok_of hit hc]

theorem fs_init_ok_inv {newId : Nat} {init : Option PyObj} {r : Restriction}
    {c : TypedFrozenset} (h : TypedFrozenset.init newId init r = .ok c) :
    c.ident = newId ∧ ∀ x ∈ c.items, isinstance x c.i_type = true := by
  unfold TypedFrozenset.init at h
  rcases hV : validate_item_type true r with e | t
  · rw [hV] at h; simp at h
  · rw [hV] at h
    simp only at h
    cases init with
    | none =>
        cases h
        exact ⟨rfl, by simp⟩
    | some obj =>
        simp only at h
        rcases hC : (check_object_compatibility
            (if obj.isGen then PyObj.iterObj obj.elems else obj) t).1 with e | u
        · rw [hC] at h; simp at h
        · rw [hC] at h
          simp only at h
          have hc := (drained_check_ok_inv hC).2
          cases h
          exact ⟨rfl, fun x hx => hc x (List.mem_toFinset.mp hx)⟩

theorem set_init_ok_inv {newId : Nat} {init : Option PyObj} {r : Restriction}
    {c : TypedSet} (h : TypedSet.init newId init r = .ok c) :
    c.ident = newId ∧ ∀ x ∈ c.items, isinstance x c.i_type = true := by
  unfold TypedSet.init at h
  rcases hV : validate_item_type true r with e | t
  · rw [hV] at h; simp at h
  · rw [hV] at h
    simp only at h
    cases init with
    | none =>
        cases h
        exact ⟨rfl, by simp⟩
    | some obj =>
        simp only at h
        rcases hC : (check_object_compatibility
            (if obj.isGen then PyObj.iterObj obj.elems else obj) t).1 with e | u
        · rw [hC] at h; simp at h
        · rw [hC] at h
          simp only at h
          have hc := (drained_check_ok_inv hC).2
          cases h
          exact ⟨rfl, fun x hx => hc x (List.mem_toFinset.mp hx)⟩

theorem list_init_ok_inv {newId : Nat} {init : Option PyObj} {r : Restriction}
    {c : TypedList} (h : TypedList.init newId init r = .ok c) :
    c.ident = newId ∧ ∀ x ∈ c.items, isinstance x c.i_type = true := by
  unfold TypedList.init at h
  rcases hV : validate_item_type false r with e | t
  · rw [hV] at h; simp at h
  · rw [hV] at h
    simp only at h
    cases init with
    | none =>
        cases h
        exact ⟨rfl, by simp⟩
    | some obj =>
        simp only at h
        rcases hC : (check_object_compatibility
            (if obj.isGen then PyObj.iterObj obj.elems else obj) t).1 with e | u
        · rw [hC] at h; simp at h
        · rw [hC] at h
          simp only at h
          have hc := (drained_check_ok_inv hC).2
          cases h
          exact ⟨rfl, hc⟩

theorem tuple_init_ok_inv {newId : Nat} {init : Option PyObj} {r : Restriction}
    {c : TypedTuple} (h : TypedTuple.init newId init r = .ok c) :
    c.ident = newId ∧ ∀ x ∈ c.items, isinstance x c.i_type = true := by
  unfold TypedTuple.init at h
  rcases hV : validate_item_type false r with e | t
  · rw [hV] at h; simp at h
  · rw [hV] at h
    simp only at h
    cases init with
    | none =>
        cases h
        exact ⟨rfl, by simp⟩
    | some obj =>
        simp only at h
        rcases hC : (check_object_compatibility
            (if obj.isGen then PyObj.iterObj obj.elems else obj) t).1 with e | u
        · rw [hC] at h; simp at h
        · rw [hC] at h
          simp only at h
          have hc := (drained_check_ok_inv hC).2
          cases h
          exact ⟨rfl, hc⟩

/-! ## Atomicity and invariant preservation of mutating calls -/

theorem mutStep_bad {st : MutState} {op : MutOp}
    (h : op.hasBadArg st.itype = true) :
    verdictOk (mutStep st op).1 = false ∧ (mutStep st op).2 = st := by
  cases st with
  | ml s =>
      cases op with
      | mAppend v =>
          simp only [MutOp.hasBadArg, MutState.itype] at h
          have hv : isinstance v s.i_type = false := by simpa using h
          simp [mutStep, append_spec, hv, verdictOk]
      | mInsert i v =>
          simp only [MutOp.hasBadArg, MutState.itype] at h
          have hv : isinstance v s.i_type = false := by simpa using h
          simp [mutStep, insert_spec, hv, verdictOk]
      | mSetitemIndex i v =>
          simp only [MutOp.hasBadArg, MutState.itype] at h
          have hv : isinstance v s.i_type = false := by simpa using h
          simp [mutStep, setitem_index_spec, hv, verdictOk]
      | mExtend o =>
          simp only [MutOp.hasBadArg, MutState.itype] at h
          by_cases hit : o.isIterable = true
          · have hall : o.elems.all (fun x => isinstance x s.i_type) = false := by
              simp [hit] at h
              simpa using h
            simp [mutStep, extend_spec, hit, hall, verdictOk]
          · rw [Bool.not_eq_true] at hit
            simp [mutStep, extend_spec, hit, verdictOk]
      | mSetitemSlice a b o =>
          simp only [MutOp.hasBadArg, MutState.itype] at h
          by_cases hit : o.isIterable = true
          · have hall : o.elems.all (fun x => isinstance x s.i_type) = false := by
              simp [hit] at h
              simpa using h
            simp [mutStep, setitem_slice_spec, hit, hall, verdictOk]
          · rw [Bool.not_eq_true] at hit
            simp [mutStep, setitem_slice_spec, hit, verdictOk]
      | mIadd o =>
          simp only [MutOp.hasBadArg, MutState.itype] at h
          by_cases hit : o.isIterable = true
          · have hall : o.elems.all (fun x => isinstance x s.i_type) = false := by
              simp [hit] at h
              simpa using h
            simp [mutStep, TypedList.iadd, extend_spec, hit, hall, verdictOk]
          · rw [Bool.not_eq_true] at hit
            simp [mutStep, TypedList.iadd, extend_spec, hit, verdictOk]
      | mAdd v => exact ⟨rfl, rfl⟩
      | mUpdate os => exact ⟨rfl, rfl⟩
      | mIxor o => exact ⟨rfl, rfl⟩
  | ms s =>
      cases op with
      | mAdd v =>
          simp only [MutOp.hasBadArg, MutState.itype] at h
          have hv : isinstance v s.i_type = false := by simpa using h
          simp [mutStep, add_spec, hv, verdictOk]
      | mIxor o =>
          simp only [MutOp.hasBadArg, MutState.itype] at h
          by_cases hit : o.isIterable = true
          · have hall : o.elems.all (fun x => isinstance x s.i_type) = false := by
              simp [hit] at h
              simpa using h
            simp [mutStep, ixor_spec, hit, hall, verdictOk]
          · rw [Bool.not_eq_true] at hit
            simp [mutStep, ixor_spec, hit, verdictOk]
      | mUpdate os =>
          simp only [MutOp.hasBadArg, MutState.itype] at h
          rcases update_cases s os with ⟨h2, e, h1⟩ | ⟨h1, hgood, _⟩
          · constructor
            · simp [mutStep, h1, verdictOk]
            · simp [mutStep, h2]
          · exfalso
            rcases List.any_eq_true.mp h with ⟨o, ho, hbad⟩
            rcases hgood o ho with ⟨hg1, hg2⟩
            rw [hg1, List.all_eq_true.mpr hg2] at hbad
            simp at hbad
      | mAppend v => exact ⟨rfl, rfl⟩
      | mInsert i v => exact ⟨rfl, rfl⟩
      | mExtend o => exact ⟨rfl, rfl⟩
      | mSetitemIndex i v => exact ⟨rfl, rfl⟩
      | mSetitemSlice a b o => exact ⟨rfl, rfl⟩
      | mIadd o => exact ⟨rfl, rfl⟩

theorem mutStep_valid {st : MutState} (op : MutOp) (hv : st.Valid) :
    (mutStep st op).2.Valid := by
  cases st with
  | ml s =>
      have hvl : ∀ x ∈ s.items, isinstance x s.i_type = true := hv
      cases op with
      | mAppend v =>
          by_cases hc : isinstance v s.i_type = true
          · simp only [mutStep, append_spec, hc, if_true]
            intro x hx
            rcases List.mem_append.mp hx with h1 | h1
            · exact hvl x h1
            · rw [List.mem_singleton.mp h1]
              exact hc
          · rw [Bool.not_eq_true] at hc
            simp only [mutStep, append_spec, hc, Bool.false_eq_true, if_false]
            exact hv
      | mInsert i v =>
          by_cases hc : isinstance v s.i_type = true
          · simp only [mutStep, insert_spec, hc, if_true]
            intro x hx
            rcases List.mem_append.mp hx with h1 | h1
            · rcases List.mem_append.mp h1 with h2 | h2
              · exact hvl x (List.take_subset _ _ h2)
              · rw [List.mem_singleton.mp h2]
                exact hc
            · exact hvl x (List.drop_subset _ _ h1)
          · rw [Bool.not_eq_true] at hc
            simp only [mutStep, insert_spec, hc, Bool.false_eq_true, if_false]
            exact hv
      | mSetitemIndex i v =>
          by_cases hc : isinstance v s.i_type = true
          · simp only [mutStep, setitem_index_spec, hc, if_true]
            by_cases hi : i < s.items.length
            · simp only [hi, if_true]
              intro x hx
              rcases List.mem_or_eq_of_mem_set hx with h1 | h1
              · exact hvl x h1
              · rw [h1]
                exact hc
            · simp only [hi, if_false]
              exact hv
          · rw [Bool.not_eq_true] at hc
            simp only [mutStep, setitem_index_spec, hc, Bool.false_eq_true, if_false]
            exact hv
      | mExtend o =>
          by_cases hit : o.isIterable = true
          · by_cases hall : o.elems.all (fun x => isinstance x s.i_type) = true
            · simp only [mutStep, extend_spec, hit, hall, if_true]
              intro x hx
              rcases List.mem_append.mp hx with h1 | h1
              · exact hvl x h1
              · exact List.all_eq_true.mp hall x h1
            · rw [Bool.not_eq_true] at hall
              simp only [mutStep, extend_spec, hit, hall, Bool.false_eq_true,
                if_true, if_false]
              exact hv
          · rw [Bool.not_eq_true] at hit
            simp only [mutStep, extend_spec, hit, Bool.false_eq_true, if_false]
            exact hv
      | mIadd o =>
          by_cases hit : o.isIterable = true
          · by_cases hall : o.elems.all (fun x => isinstance x s.i_type) = true
            · simp only [mutStep, TypedList.iadd, extend_spec, hit, hall, if_true]
              intro x hx
              rcases List.mem_append.mp hx with h1 | h1
              · exact hvl x h1
              · exact List.all_eq_true.mp hall x h1
            · rw [Bool.not_eq_true] at hall
              simp only [mutStep, TypedList.iadd, extend_spec, hit, hall,
                Bool.false_eq_true, if_true, if_false]
              exact hv
          · rw [Bool.not_eq_true] at hit
            simp only [mutStep, TypedList.iadd, extend_spec, hit,
              Bool.false_eq_true, if_false]
            exact hv
      | mSetitemSlice a b o =>
          by_cases hit : o.isIterable = true
          · by_cases hall : o.elems.all (fun x => isinstance x s.i_type) = true
            · simp only [mutStep, setitem_slice_spec, hit, hall, if_true]
              intro x hx
              rcases List.mem_append.mp hx with h1 | h1
              · rcases List.mem_append.mp h1 with h2 | h2
                · exact hvl x (List.take_subset _ _ h2)
                · exact List.all_eq_true.mp hall x h2
              · exact hvl x (List.drop_subset _ _ h1)
            · rw [Bool.not_eq_true] at hall
              simp only [mutStep, setitem_slice_spec, hit, hall,
                Bool.false_eq_true, if_true, if_false]
              exact hv
          · rw [Bool.not_eq_true] at hit
            simp only [mutStep, setitem_slice_spec, hit, Bool.false_eq_true,
              if_false]
            exact hv
      | mAdd v => exact hv
      | mUpdate os => exact hv
      | mIxor o => exact hv
  | ms s =>
      have hvl : ∀ x ∈ s.items, isinstance x s.i_type = true := hv
      cases op with
      | mAdd v =>
          by_cases hc : isinstance v s.i_type = true
          · simp only [mutStep, add_spec, hc, if_true]
            intro x hx
            rcases Finset.mem_insert.mp hx with h1 | h1
            · rw [h1]
              exact hc
            · exact hvl x h1
          · rw [Bool.not_eq_true] at hc
            simp only [mutStep, add_spec, hc, Bool.false_eq_true, if_false]
            exact hv
      | mIxor o =>
          by_cases hit : o.isIterable = true
          · by_cases hall : o.elems.all (fun x => isinstance x s.i_type) = true
            · simp only [mutStep, ixor_spec, hit, hall, if_true]
              intro x hx
              rcases mem_symmDiffSet.mp hx with ⟨h1, _⟩ | ⟨h1, _⟩
              · exact hvl x h1
              · exact List.all_eq_true.mp hall x (List.mem_toFinset.mp h1)
            · rw [Bool.not_eq_true] at hall
              simp only [mutStep, ixor_spec, hit, hall, Bool.false_eq_true,
                if_true, if_false]
              exact hv
          · rw [Bool.not_eq_true] at hit
            simp only [mutStep, ixor_spec, hit, Bool.false_eq_true, if_false]
            exact hv
      | mUpdate os =>
          rcases update_cases s os with ⟨h2, _, _⟩ | ⟨_, _, hty, _, hmem⟩
          · show MutState.Valid (.ms (s.update os).2)
            rw [h2]
            exact hv
          · show MutState.Valid (.ms (s.update os).2)
            intro x hx
            rw [hty]
            rcases hmem x hx with h1 | h1
            · exact hvl x h1
            · exact h1
      | mAppend v => exact hv
      | mInsert i v => exact hv
      | mExtend o => exact hv
      | mSetitemIndex i v => exact hv
      | mSetitemSlice a b o => exact hv
      | mIadd o => exact hv

theorem tcStep_valid {c : Container} {op : TCOp} {c' : Container}
    (hv : c.Valid) (h : tcStep c op = .ok c') : c'.Valid := by
  cases c with
  | tl s =>
      cases op with
      | mutOp mop =>
          have hm := @mutStep_valid (.ml s) mop hv
          have h2 : (match mutStep (.ml s) mop with
              | (Except.ok _, st) =>
                  Except.ok (match st with
                    | MutState.ml s' => Container.tl s'
                    | MutState.ms s' => Container.ts s')
              | (Except.error e, _) => (Except.error e : Except PyErr Container)) =
              Except.ok c' := h
          rcases hP : mutStep (MutState.ml s) mop with ⟨v, st⟩
          rw [hP] at h2 hm
          cases v with
          | error e => simp at h2
          | ok u =>
              simp only at h2 hm
              cases h2
              cases st with
              | ml s' => exact hm
              | ms s' => exact hm
      | tcCopy =>
          cases h
          exact hv
      | fDifference os => simp [tcStep] at h
      | fIntersection os => simp [tcStep] at h
      | fSymmDiff o => simp [tcStep] at h
      | fUnion os => simp [tcStep] at h
      | fSub o => simp [tcStep] at h
      | fAnd o => simp [tcStep] at h
      | fOr o => simp [tcStep] at h
      | fXor o => simp [tcStep] at h
  | ts s =>
      cases op with
      | mutOp mop =>
          have hm := @mutStep_valid (.ms s) mop hv
          have h2 : (match mutStep (.ms s) mop with
              | (Except.ok _, st) =>
                  Except.ok (match st with
                    | MutState.ml s' => Container.tl s'
                    | MutState.ms s' => Container.ts s')
              | (Except.error e, _) => (Except.error e : Except PyErr Container)) =
              Except.ok c' := h
          rcases hP : mutStep (MutState.ms s) mop with ⟨v, st⟩
          rw [hP] at h2 hm
          cases v with
          | error e => simp at h2
          | ok u =>
              simp only at h2 hm
              cases h2
              cases st with
              | ml s' => exact hm
              | ms s' => exact hm
      | tcCopy =>
          cases h
          exact hv
      | fDifference os => simp [tcStep] at h
      | fIntersection os => simp [tcStep] at h
      | fSymmDiff o => simp [tcStep] at h
      | fUnion os => simp [tcStep] at h
      | fSub o => simp [tcStep] at h
      | fAnd o => simp [tcStep] at h
      | fOr o => simp [tcStep] at h
      | fXor o => simp [tcStep] at h
  | tf s =>
      have hvf : ∀ x ∈ s.items, isinstance x s.i_type = true := hv
      cases op with
      | mutOp mop => simp [tcStep] at h
      | tcCopy =>
          cases h
          exact hv
      | fDifference os =>
          have h2 : (Container.tf ·) <$> s.difference os = Except.ok c' := h
          rcases hD : s.difference os with e | r
          · rw [hD] at h2; simp only [Except.map_error] at h2; exact absurd h2 (by simp)
          · rw [hD] at h2
            simp only [Except.map_ok] at h2
            cases h2
            rcases difference_ok_inv hD with ⟨_, hty, hsub⟩
            intro x hx
            rw [hty]
            exact hvf x (hsub hx)
      | fIntersection os =>
          have h2 : (Container.tf ·) <$> s.intersection os = Except.ok c' := h
          rcases hD : s.intersection os with e | r
          · rw [hD] at h2; simp only [Except.map_error] at h2; exact absurd h2 (by simp)
          · rw [hD] at h2
            simp only [Except.map_ok] at h2
            cases h2
            rcases intersection_ok_inv hD with ⟨_, hty, hsub⟩
            intro x hx
            rw [hty]
            exact hvf x (hsub hx)
      | fSub o =>
          have h2 : (Container.tf ·) <$> s.sub_op o = Except.ok c' := h
          rcases hD : s.sub_op o with e | r
          · rw [hD] at h2; simp only [Except.map_error] at h2; exact absurd h2 (by simp)
          · rw [hD] at h2
            simp only [Except.map_ok] at h2
            cases h2
            rcases sub_op_ok_inv hD with ⟨_, hty, hsub⟩
            intro x hx
            rw [hty]
            exact hvf x (hsub hx)
      | fAnd o =>
          have h2 : (Container.tf ·) <$> s.and_op o = Except.ok c' := h
          rcases hD : s.and_op o with e | r
          · rw [hD] at h2; simp only [Except.map_error] at h2; exact absurd h2 (by simp)
          · rw [hD] at h2
            simp only [Except.map_ok] at h2
            cases h2
            rcases and_op_ok_inv hD with ⟨_, hty, hsub⟩
            intro x hx
            rw [hty]
            exact hvf x (hsub hx)
      | fSymmDiff o =>
          have h2 : (Container.tf ·) <$> s.symmetric_difference o = Except.ok c' := h
          rcases hD : s.symmetric_difference o with e | r
          · rw [hD] at h2; simp only [Except.map_error] at h2; exact absurd h2 (by simp)
          · rw [hD] at h2
            simp only [Except.map_ok] at h2
            cases h2
            rcases symm_diff_ok_inv hD with ⟨_, hty, hmem⟩
            intro x hx
            rw [hty]
            rcases hmem x hx with h1 | h1
            · exact hvf x h1
            · exact h1
      | fUnion os =>
          have h2 : (Container.tf ·) <$> s.union os = Except.ok c' := h
          rcases hD : s.union os with e | r
          · rw [hD] at h2; simp only [Except.map_error] at h2; exact absurd h2 (by simp)
          · rw [hD] at h2
            simp only [Except.map_ok] at h2
            cases h2
            rcases union_ok_inv hD with ⟨_, hty, hmem⟩
            intro x hx
            rw [hty]
            rcases hmem x hx with h1 | h1
            · exact hvf x h1
            · exact h1
      | fOr o =>
          have h2 : (Container.tf ·) <$> s.or_op o = Except.ok c' := h
          rcases hD : s.or_op o with e | r
          · rw [hD] at h2; simp only [Except.map_error] at h2; exact absurd h2 (by simp)
          · rw [hD] at h2
            simp only [Except.map_ok] at h2
            cases h2
            rcases or_op_ok_inv hD with ⟨_, hty, hmem⟩
            intro x hx
            rw [hty]
            rcases hmem x hx with h1 | h1
            · exact hvf x h1
            · exact h1
      | fXor o =>
          have h2 : (Container.tf ·) <$> s.xor_op o = Except.ok c' := h
          rcases hD : s.xor_op o with e | r
          · rw [hD] at h2; simp only [Except.map_error] at h2; exact absurd h2 (by simp)
          · rw [hD] at h2
            simp only [Except.map_ok] at h2
            cases h2
            rcases xor_op_ok_inv hD with ⟨_, hty, hmem⟩
            intro x hx
            rw [hty]
            rcases hmem x hx with h1 | h1
            · exact hvf x h1
            · exact h1

theorem tcRun_valid {c : Container} {ops : List TCOp} {c' : Container}
    (hv : c.Valid) (h : tcRun c ops = .ok c') : c'.Valid := by
  induction ops generalizing c with
  | nil =>
      cases h
      exact hv
  | cons op rest ih =>
      unfold tcRun at h
      rcases hS : tcStep c op with e | c₂
      · rw [hS] at h; simp at h
      · rw [hS] at h
        simp only at h
        exact ih (tcStep_valid hv hS) h

/-! ## Decidability instances (used by concrete witnesses) -/

instance {ε α : Type} [DecidableEq ε] [DecidableEq α] :
    DecidableEq (Except ε α) := fun a b =>
  match a, b with
  | .error e, .error f =>
      if h : e = f then isTrue (by rw [h])
      else isFalse (fun hc => h (Except.error.inj hc))
  | .error _, .ok _ => isFalse (fun hc => Except.noConfusion hc)
  | .ok _, .error _ => isFalse (fun hc => Except.noConfusion hc)
  | .ok x, .ok y =>
      if h : x = y then isTrue (by rw [h])
      else isFalse (fun hc => h (Except.ok.inj hc))

instance (c : Container) : Decidable c.Valid := by
  cases c with
  | tl s =>
      exact (inferInstance :
        Decidable (∀ x ∈ s.items, isinstance x s.i_type = true))
  | ts s =>
      exact (inferInstance :
        Decidable (∀ x ∈ s.items, isinstance x s.i_type = true))
  | tf s =>
      exact (inferInstance : Decidable s.Valid)

instance (st : MutState) : Decidable st.Valid := by
  cases st with
  | ml s =>
      exact (inferInstance :
        Decidable (∀ x ∈ s.items, isinstance x s.i_type = true))
  | ms s =>
      exact (inferInstance :
        Decidable (∀ x ∈ s.items, isinstance x s.i_type = true))

/-! ## Result-set characterizations used for the generator claims -/

theorem symm_diff_ok_items_aux {s : TypedFrozenset} {w : PyObj} {r : TypedFrozenset}
    (hg : w.isGen = false) (h : s.symmetric_difference w = .ok r) :
    r.items = symmDiffSet s.items w.elems.toFinset := by
  unfold TypedFrozenset.symmetric_difference at h
  rw [hg] at h
  simp only [Bool.false_eq_true, if_false] at h
  rcases hE : check_object_compatibility w s.i_type with ⟨verdict, w'⟩
  rw [hE] at h
  cases verdict with
  | error e => simp at h
  | ok u =>
      have hw' : w' = w := by
        have hs := check_snd_of_not_gen (o := w) s.i_type hg
        rw [hE] at hs
        exact hs
      rw [hw'] at h
      have h2 : (match builtinSymmDiff s.items w with
          | Except.error e => (Except.error e : Except PyErr TypedFrozenset)
          | Except.ok xs => Except.ok (s.freshFrom xs)) = Except.ok r := h
      rcases hB : builtinSymmDiff s.items w with e | xs
      · rw [hB] at h2; simp at h2
      · rw [hB] at h2
        simp only at h2
        have hxs := builtinSymmDiff_ok hB
        cases h2
        exact hxs

theorem union_ok_items_no_gen {s : TypedFrozenset} {args : List PyObj}
    {r : TypedFrozenset} (hg : ∀ o ∈ args, o.isGen = false)
    (h : s.union args = .ok r) :
    r.items = args.foldl (fun acc o => acc ∪ o.elems.toFinset) s.items := by
  have hc : contains_generators args = false := by
    unfold contains_generators
    rw [List.any_eq_false]
    intro o ho
    rw [hg o ho]
    simp
  unfold TypedFrozenset.union at h
  rw [hc] at h
  simp only [Bool.false_eq_true, if_false] at h
  rcases hP : checkAllObjects args s.i_type with ⟨v, objs'⟩
  rw [hP] at h
  cases v with
  | error e => simp at h
  | ok u =>
      have hobjs : objs' = args := by
        have hs := @checkAll_snd_of_no_gen args s.i_type hg
        rw [hP] at hs
        exact hs
      rw [hobjs] at h
      have h2 : (match builtinUnion s.items args with
          | Except.error e => (Except.error e : Except PyErr TypedFrozenset)
          | Except.ok xs => Except.ok (s.freshFrom xs)) = Except.ok r := h
      rcases hB : builtinUnion s.items args with e | xs
      · rw [hB] at h2; simp at h2
      · rw [hB] at h2
        simp only at h2
        have hxs := builtinUnion_ok hB
        cases h2
        exact hxs

/-! # Claim theorems -/

/-- C1: for every complete-tier `TypedFrozenset`, the subset-producing
derivations `difference`, `intersection`, `__sub__` and `__and__` accept
any iterable (respectively set) argument — including arguments with
elements that are not instances of the item type — never raise a
type-restriction (or iterable-expected) error, and return a new typed
frozenset of the same class and item type whose elements are all already
elements of the receiver; no compatibility re-check is performed on the
result (the only possible failure is the built-in algorithm's own native
error on a non-iterable/non-set operand). -/
theorem c1_subset_derivations_skip_check :
    (∀ (s : TypedFrozenset) (args : List PyObj),
      (∀ o ∈ args, o.isIterable = true) →
      ∃ r, s.difference args = .ok r ∧ r.items ⊆ s.items ∧
        r.i_type = s.i_type ∧ r.ident ≠ s.ident) ∧
    (∀ (s : TypedFrozenset) (args : List PyObj),
      (∀ o ∈ args, o.isIterable = true) →
      ∃ r, s.intersection args = .ok r ∧ r.items ⊆ s.items ∧
        r.i_type = s.i_type ∧ r.ident ≠ s.ident) ∧
    (∀ (s : TypedFrozenset) (xs : List PyVal),
      ∃ r, s.sub_op (.setObj xs) = .ok r ∧ r.items ⊆ s.items ∧
        r.i_type = s.i_type ∧ r.ident ≠ s.ident) ∧
    (∀ (s : TypedFrozenset) (xs : List PyVal),
      ∃ r, s.and_op (.setObj xs) = .ok r ∧ r.items ⊆ s.items ∧
        r.i_type = s.i_type ∧ r.ident ≠ s.ident) ∧
    (∀ (s : TypedFrozenset) (args : List PyObj) (e : PyErr),
      s.difference args = .error e → e = .nativeError) ∧
    (∀ (s : TypedFrozenset) (args : List PyObj) (e : PyErr),
      s.intersection args = .error e → e = .nativeError) ∧
    (∀ (s : TypedFrozenset) (v : PyObj) (e : PyErr),
      s.sub_op v = .error e → e = .nativeError) ∧
    (∀ (s : TypedFrozenset) (v : PyObj) (e : PyErr),
      s.and_op v = .error e → e = .nativeError) := by
  refine ⟨?_, ?_, ?_, ?_, ?_, ?_, ?_, ?_⟩
  · intro s args h
    refine ⟨_, difference_ok h, ?_, rfl, Nat.succ_ne_self _⟩
    exact foldl_sdiff_subset _ _
  · intro s args h
    refine ⟨_, intersection_ok h, ?_, rfl, Nat.succ_ne_self _⟩
    exact foldl_inter_subset _ _
  · intro s xs
    exact ⟨_, sub_op_ok s xs, Finset.sdiff_subset, rfl, Nat.succ_ne_self _⟩
  · intro s xs
    exact ⟨_, and_op_ok s xs, Finset.inter_subset_left, rfl, Nat.succ_ne_self _⟩
  · intro s args e h
    exact difference_err h
  · intro s args e h
    exact intersection_err h
  · intro s v e h
    exact sub_op_err h
  · intro s v e h
    exact and_op_err h

/-- C1 witness: a concrete string-typed frozenset; `difference` with an
iterable containing a foreign (`int`) element succeeds and returns a new
typed subset of the receiver. -/
theorem c1_witness :
    ∃ r, (⟨0, {PyVal.vStr "A", PyVal.vStr "B"}, PyType.strT⟩ :
        TypedFrozenset).difference [PyObj.iterObj [PyVal.vInt 1, PyVal.vStr "A"]] =
        .ok r ∧
      r.items ⊆ {PyVal.vStr "A", PyVal.vStr "B"} ∧
      r.i_type = PyType.strT ∧ r.ident ≠ 0 :=
  c1_subset_derivations_skip_check.1
    ⟨0, {PyVal.vStr "A", PyVal.vStr "B"}, PyType.strT⟩
    [PyObj.iterObj [PyVal.vInt 1, PyVal.vStr "A"]] (by decide)

/-- C2: for every complete-tier `TypedFrozenset`, the foreign-item
introducing derivations `union`, `symmetric_difference`, `__or__` and
`__xor__` check every element of every argument before delegating: with
only compatible elements they return a new typed frozenset of the same
class and item type, a non-iterable argument raises
`IterableExpectedError`, and an iterable argument with an incompatible
element raises `TypeRestrictionError` (so no new instance is produced). -/
theorem c2_foreign_item_derivations_checked :
    (∀ (s : TypedFrozenset) (args : List PyObj),
      (∀ o ∈ args, o.isIterable = true) →
      (∀ o ∈ args, ∀ x ∈ o.elems, isinstance x s.i_type = true) →
      ∃ r, s.union args = .ok r ∧ r.i_type = s.i_type ∧ r.ident ≠ s.ident) ∧
    (∀ (s : TypedFrozenset) (v : PyObj), v.isIterable = false →
      s.union [v] = .error .iterableExpectedError) ∧
    (∀ (s : TypedFrozenset) (v : PyObj), v.isIterable = true →
      v.elems.all (fun x => isinstance x s.i_type) = false →
      s.union [v] = .error .typeRestrictionError) ∧
    (∀ (s : TypedFrozenset) (v : PyObj), v.isIterable = true →
      (∀ x ∈ v.elems, isinstance x s.i_type = true) →
      ∃ r, s.symmetric_difference v = .ok r ∧ r.i_type = s.i_type ∧
        r.ident ≠ s.ident) ∧
    (∀ (s : TypedFrozenset) (v : PyObj), v.isIterable = false →
      s.symmetric_difference v = .error .iterableExpectedError) ∧
    (∀ (s : TypedFrozenset) (v : PyObj), v.isIterable = true →
      v.elems.all (fun x => isinstance x s.i_type) = false →
      s.symmetric_difference v = .error .typeRestrictionError) ∧
    (∀ (s : TypedFrozenset) (xs : List PyVal),
      (∀ x ∈ xs, isinstance x s.i_type = true) →
      ∃ r, s.or_op (.setObj xs) = .ok r ∧ r.items = s.items ∪ xs.toFinset ∧
        r.i_type = s.i_type ∧ r.ident ≠ s.ident) ∧
    (∀ (s : TypedFrozenset) (v : PyObj), v.isIterable = false →
      s.or_op v = .error .iterableExpectedError) ∧
    (∀ (s : TypedFrozenset) (v : PyObj), v.isIterable = true →
      v.elems.all (fun x => isinstance x s.i_type) = false →
      s.or_op v = .error .typeRestrictionError) ∧
    (∀ (s : TypedFrozenset) (xs : List PyVal),
      (∀ x ∈ xs, isinstance x s.i_type = true) →
      ∃ r, s.xor_op (.setObj xs) = .ok r ∧
        r.items = symmDiffSet s.items xs.toFinset ∧
        r.i_type = s.i_type ∧ r.ident ≠ s.ident) ∧
    (∀ (s : TypedFrozenset) (v : PyObj), v.isIterable = false →
      s.xor_op v = .error .iterableExpectedError) ∧
    (∀ (s : TypedFrozenset) (v : PyObj), v.isIterable = true →
      v.elems.all (fun x => isinstance x s.i_type) = false →
      s.xor_op v = .error .typeRestrictionError) := by
  refine ⟨?_, ?_, ?_, ?_, ?_, ?_, ?_, ?_, ?_, ?_, ?_, ?_⟩
  · intro s args h1 h2
    exact ⟨_, union_ok h1 h2, rfl, Nat.succ_ne_self _⟩
  · intro s v h
    exact union_err_not_iterable h
  · intro s v h1 h2
    exact union_err_bad_elem h1 h2
  · intro s v h1 h2
    exact ⟨_, symm_diff_ok h1 h2, rfl, Nat.succ_ne_self _⟩
  · intro s v h
    exact symm_diff_err_not_iterable h
  · intro s v h1 h2
    exact symm_diff_err_bad_elem h1 h2
  · intro s xs h
    exact ⟨_, or_op_ok h, rfl, rfl, Nat.succ_ne_self _⟩
  · intro s v h
    exact or_op_err_not_iterable h
  · intro s v h1 h2
    exact or_op_err_bad_elem h1 h2
  · intro s xs h
    exact ⟨_, xor_op_ok h, rfl, rfl, Nat.succ_ne_self _⟩
  · intro s v h
    exact xor_op_err_not_iterable h
  · intro s v h1 h2
    exact xor_op_err_bad_elem h1 h2

/-- C2 witness: on a concrete string-typed frozenset, `union` with a
mixed `{str, int}` argument raises `TypeRestrictionError`, union with a
compatible argument succeeds, and union with a non-iterable raises
`IterableExpectedError`. -/
theorem c2_witness :
    (⟨0, {PyVal.vStr "A", PyVal.vStr "B"}, PyType.strT⟩ :
        TypedFrozenset).union [PyObj.setObj [PyVal.vStr "C", PyVal.vInt 1]] =
      .error .typeRestrictionError ∧
    (∃ r, (⟨0, {PyVal.vStr "A"}, PyType.strT⟩ : TypedFrozenset).union
        [PyObj.setObj [PyVal.vStr "C"]] = .ok r ∧ r.i_type = PyType.strT ∧
        r.ident ≠ 0) ∧
    (⟨0, {PyVal.vStr "A"}, PyType.strT⟩ : TypedFrozenset).union
        [PyObj.scalar (PyVal.vInt 7)] = .error .iterableExpectedError :=
  ⟨c2_foreign_item_derivations_checked.2.2.1 _ _ (by decide) (by decide),
   c2_foreign_item_derivations_checked.1 _ _ (by decide) (by decide),
   c2_foreign_item_derivations_checked.2.1 _ _ (by decide)⟩

/-- C3: the type-safety invariant holds at every observable moment: any
successful construction of a typed container yields a container whose
elements are all instances of its declared item type, and the invariant
is preserved along every sequence of successful operations (mutations,
frozenset derivations and copies), both in the receiver and in every
container the sequence produces. -/
theorem c3_invariant_preservation :
    (∀ (newId : Nat) (init : Option PyObj) (r : Restriction) (c : TypedList),
      TypedList.init newId init r = .ok c → Container.Valid (.tl c)) ∧
    (∀ (newId : Nat) (init : Option PyObj) (r : Restriction) (c : TypedTuple),
      TypedTuple.init newId init r = .ok c →
      ∀ x ∈ c.items, isinstance x c.i_type = true) ∧
    (∀ (newId : Nat) (init : Option PyObj) (r : Restriction) (c : TypedSet),
      TypedSet.init newId init r = .ok c → Container.Valid (.ts c)) ∧
    (∀ (newId : Nat) (init : Option PyObj) (r : Restriction) (c : TypedFrozenset),
      TypedFrozenset.init newId init r = .ok c → Container.Valid (.tf c)) ∧
    (∀ (c : Container) (ops : List TCOp) (c' : Container),
      Container.Valid c → tcRun c ops = .ok c' → Container.Valid c') := by
  refine ⟨?_, ?_, ?_, ?_, ?_⟩
  · intro newId init r c h
    exact (list_init_ok_inv h).2
  · intro newId init r c h
    exact (tuple_init_ok_inv h).2
  · intro newId init r c h
    exact (set_init_ok_inv h).2
  · intro newId init r c h
    exact (fs_init_ok_inv h).2
  · intro c ops c' hv h
    exact tcRun_valid hv h

/-- C3 witness: constructing a string-typed list from a compatible
iterable yields a valid container, and running a concrete successful
trace (an append then a copy) preserves validity. -/
theorem c3_witness :
    Container.Valid (.tl ⟨0, [PyVal.vStr "a"], PyType.strT⟩) ∧
    Container.Valid (.tl ⟨1, [PyVal.vStr "a", PyVal.vStr "b"], PyType.strT⟩) :=
  ⟨c3_invariant_preservation.1 0 (some (.iterObj [PyVal.vStr "a"]))
      (.rType .strT) _ (by decide),
   c3_invariant_preservation.2.2.2.2
      (.tl ⟨0, [PyVal.vStr "a"], PyType.strT⟩)
      [TCOp.mutOp (.mAppend (PyVal.vStr "b")), TCOp.tcCopy]
      (.tl ⟨1, [PyVal.vStr "a", PyVal.vStr "b"], PyType.strT⟩)
      (by decide) (by decide)⟩

/-- C4: every mutating operation (append, insert, extend, index and slice
assignment, in-place addition on lists; add, update, in-place symmetric
difference on sets) invoked with at least one incompatible or
non-iterable argument element raises, and the receiver's contents are
exactly the same before and after the failed call. -/
theorem c4_mutation_atomicity :
    ∀ (st : MutState) (op : MutOp), op.hasBadArg st.itype = true →
      verdictOk (mutStep st op).1 = false ∧ (mutStep st op).2 = st := by
  intro st op h
  exact mutStep_bad h

/-- C4 witness: appending an `int` to a concrete string-typed list fails
and leaves the list unchanged, as does updating a string-typed set with a
mixed iterable. -/
theorem c4_witness :
    (verdictOk (mutStep (.ml ⟨0, [PyVal.vStr "a"], PyType.strT⟩)
        (.mAppend (PyVal.vInt 1))).1 = false ∧
      (mutStep (.ml ⟨0, [PyVal.vStr "a"], PyType.strT⟩)
        (.mAppend (PyVal.vInt 1))).2 = .ml ⟨0, [PyVal.vStr "a"], PyType.strT⟩) ∧
    (verdictOk (mutStep (.ms ⟨0, {PyVal.vStr "a"}, PyType.strT⟩)
        (.mUpdate [PyObj.iterObj [PyVal.vStr "b", PyVal.vInt 2]])).1 = false ∧
      (mutStep (.ms ⟨0, {PyVal.vStr "a"}, PyType.strT⟩)
        (.mUpdate [PyObj.iterObj [PyVal.vStr "b", PyVal.vInt 2]])).2 =
        .ms ⟨0, {PyVal.vStr "a"}, PyType.strT⟩) :=
  ⟨c4_mutation_atomicity _ _ (by decide), c4_mutation_atomicity _ _ (by decide)⟩

/-- C5: tier result-type law for the derivations that cannot introduce new
items: on every valid (all-iterable) input, the light tier returns a
result whose concrete runtime class is the plain built-in frozenset while
the complete tier returns one whose concrete class is the typed class,
and both contain exactly the same elements — equal to the result of the
same operation on the plain built-in container. -/
theorem c5_tier_result_type_law :
    ∀ (idLight idFull : Nat) (base : Finset PyVal) (t : PyType)
      (args : List PyObj), (∀ o ∈ args, o.isIterable = true) →
      ∃ bd bi : Finset PyVal,
        builtinDifference base args = .ok bd ∧
        builtinIntersection base args = .ok bi ∧
        TypedFrozenset_lt.differenceTagged ⟨idLight, base, t⟩ args =
          .ok (.builtinFs bd) ∧
        TypedFrozenset.differenceTagged ⟨idFull, base, t⟩ args =
          .ok (.typedFs ⟨idFull + 1, bd, t⟩) ∧
        TypedFrozenset_lt.intersectionTagged ⟨idLight, base, t⟩ args =
          .ok (.builtinFs bi) ∧
        TypedFrozenset.intersectionTagged ⟨idFull, base, t⟩ args =
          .ok (.typedFs ⟨idFull + 1, bi, t⟩) := by
  intro idLight idFull base t args h
  have hall : args.all PyObj.isIterable = true := List.all_eq_true.mpr h
  refine ⟨args.foldl (fun acc o => acc \ o.elems.toFinset) base,
    args.foldl (fun acc o => acc ∩ o.elems.toFinset) base, ?_, ?_, ?_, ?_, ?_, ?_⟩
  · unfold builtinDifference
    rw [hall]
    simp
  · unfold builtinIntersection
    rw [hall]
    simp
  · unfold TypedFrozenset_lt.differenceTagged TypedFrozenset_lt.difference
      builtinDifference
    rw [hall]
    simp
  · unfold TypedFrozenset.differenceTagged
    rw [difference_ok h]
    rfl
  · unfold TypedFrozenset_lt.intersectionTagged TypedFrozenset_lt.intersection
      builtinIntersection
    rw [hall]
    simp
  · unfold TypedFrozenset.intersectionTagged
    rw [intersection_ok h]
    rfl

/-- C5 witness: concrete difference of a string-typed base with a mixed
iterable — the light tier yields the plain frozenset, the complete tier
the typed class, with equal elements. -/
theorem c5_witness :
    ∃ bd bi : Finset PyVal,
      builtinDifference {PyVal.vStr "A", PyVal.vStr "B"}
        [PyObj.iterObj [PyVal.vStr "B", PyVal.vInt 3]] = .ok bd ∧
      builtinIntersection {PyVal.vStr "A", PyVal.vStr "B"}
        [PyObj.iterObj [PyVal.vStr "B", PyVal.vInt 3]] = .ok bi ∧
      TypedFrozenset_lt.differenceTagged
        ⟨5, {PyVal.vStr "A", PyVal.vStr "B"}, PyType.strT⟩
        [PyObj.iterObj [PyVal.vStr "B", PyVal.vInt 3]] = .ok (.builtinFs bd) ∧
      TypedFrozenset.differenceTagged
        ⟨7, {PyVal.vStr "A", PyVal.vStr "B"}, PyType.strT⟩
        [PyObj.iterObj [PyVal.vStr "B", PyVal.vInt 3]] =
        .ok (.typedFs ⟨8, bd, PyType.strT⟩) ∧
      TypedFrozenset_lt.intersectionTagged
        ⟨5, {PyVal.vStr "A", PyVal.vStr "B"}, PyType.strT⟩
        [PyObj.iterObj [PyVal.vStr "B", PyVal.vInt 3]] = .ok (.builtinFs bi) ∧
      TypedFrozenset.intersectionTagged
        ⟨7, {PyVal.vStr "A", PyVal.vStr "B"}, PyType.strT⟩
        [PyObj.iterObj [PyVal.vStr "B", PyVal.vInt 3]] =
        .ok (.typedFs ⟨8, bi, PyType.strT⟩) :=
  c5_tier_result_type_law 5 7 {PyVal.vStr "A", PyVal.vStr "B"} PyType.strT
    [PyObj.iterObj [PyVal.vStr "B", PyVal.vInt 3]] (by decide)

/-- C6: a one-shot generator argument is materialized exactly once before
validation and the materialized sequence is used for the delegated
operation: `symmetric_difference` behaves on a generator exactly as on
the equivalent reusable tuple, `union` behaves on its argument list
exactly as on the generator-unpacked list, and on success the result
really contains the generator's elements (they are not lost to an
exhausted iterator). -/
theorem c6_generator_materialized_once :
    (∀ (s : TypedFrozenset) (xs : List PyVal),
      s.symmetric_difference (.genObj xs) = s.symmetric_difference (.iterObj xs)) ∧
    (∀ (s : TypedFrozenset) (args : List PyObj),
      s.union args = s.union (unpack_generators args)) ∧
    (∀ (s : TypedFrozenset) (xs : List PyVal) (r : TypedFrozenset),
      s.symmetric_difference (.genObj xs) = .ok r →
      ∀ x ∈ xs, x ∉ s.items → x ∈ r.items) ∧
    (∀ (s : TypedFrozenset) (args : List PyObj) (xs : List PyVal)
      (r : TypedFrozenset), PyObj.genObj xs ∈ args → s.union args = .ok r →
      ∀ x ∈ xs, x ∈ r.items) := by
  refine ⟨?_, ?_, ?_, ?_⟩
  · intro s xs
    exact symm_diff_gen_eq_iter s xs
  · intro s args
    exact union_eq_unpack s args
  · intro s xs r h x hx hnx
    rw [symm_diff_gen_eq_iter] at h
    have hit := symm_diff_ok_items_aux (w := PyObj.iterObj xs) rfl h
    rw [hit]
    exact mem_symmDiffSet.mpr (Or.inr ⟨List.mem_toFinset.mpr hx, hnx⟩)
  · intro s args xs r hmem h x hx
    rw [union_eq_unpack] at h
    have hitems := union_ok_items_no_gen (unpack_no_gen args) h
    rw [hitems]
    exact mem_foldl_union.mpr (Or.inr ⟨PyObj.iterObj xs, mem_unpack_of_gen hmem, hx⟩)

/-- C6 witness: a union whose argument list contains a concrete generator
succeeds, and the generator's element really appears in the result. -/
theorem c6_witness :
    PyVal.vStr "C" ∈
      (TypedFrozenset.mk 1 ({PyVal.vStr "A"} ∪ [PyVal.vStr "C"].toFinset)
        PyType.strT).items :=
  c6_generator_materialized_once.2.2.2
    ⟨0, {PyVal.vStr "A"}, PyType.strT⟩ [PyObj.genObj [PyVal.vStr "C"]]
    [PyVal.vStr "C"]
    ⟨1, {PyVal.vStr "A"} ∪ [PyVal.vStr "C"].toFinset, PyType.strT⟩
    (by decide) (by decide) (PyVal.vStr "C") (by decide)

/-- C7: restriction-validation precedence — when the supplied item type is
invalid for the container kind (not a type at all, or unhashable for the
unique-item kinds) and the supplied data would independently fail
validation (non-iterable, or containing elements incompatible with the
named type), every typed-container construction and every
converter-utility creation still reports `InvalidTypeRestrictionError`:
the item type is checked strictly before the data. -/
theorem c7_restriction_validation_precedence :
    (∀ (newId : Nat) (obj : PyObj),
      dataFailsIndependently .rNotAType obj = true →
      TypedList.init newId (some obj) .rNotAType =
        .error .invalidTypeRestrictionError ∧
      TypedTuple.init newId (some obj) .rNotAType =
        .error .invalidTypeRestrictionError) ∧
    (∀ (newId : Nat) (obj : PyObj) (r : Restriction),
      (∃ e, validate_item_type true r = .error e) →
      dataFailsIndependently r obj = true →
      TypedSet.init newId (some obj) r = .error .invalidTypeRestrictionError ∧
      TypedFrozenset.init newId (some obj) r =
        .error .invalidTypeRestrictionError ∧
      TypedFrozenset_lt.init newId (some obj) r =
        .error .invalidTypeRestrictionError) ∧
    (get_converter_func_list .rNotAType = .error .invalidTypeRestrictionError) ∧
    (get_converter_func_tuple .rNotAType = .error .invalidTypeRestrictionError) ∧
    (∀ r : Restriction, (∃ e, validate_item_type true r = .error e) →
      get_converter_func_set r = .error .invalidTypeRestrictionError ∧
      get_converter_func_frozenset r = .error .invalidTypeRestrictionError ∧
      get_typesafe_frozenset_converter_func r =
        .error .invalidTypeRestrictionError) ∧
    (get_typesafe_tuple_converter_func .rNotAType =
      .error .invalidTypeRestrictionError) := by
  refine ⟨?_, ?_, rfl, rfl, ?_, rfl⟩
  · intro newId obj _
    exact ⟨list_init_invalid rfl, tuple_init_invalid rfl⟩
  · intro newId obj r ⟨e, he⟩ _
    have hr : validate_item_type true r = .error .invalidTypeRestrictionError := by
      rw [he, validate_err he]
    exact ⟨set_init_invalid hr, fs_init_invalid hr, fslt_init_invalid hr⟩
  · intro r ⟨e, he⟩
    have hr : validate_item_type true r = .error .invalidTypeRestrictionError := by
      rw [he, validate_err he]
    refine ⟨?_, ?_, ?_⟩
    · unfold get_converter_func_set
      rw [hr]
    · unfold get_converter_func_frozenset
      rw [hr]
    · unfold get_typesafe_frozenset_converter_func
      rw [hr]

/-- C7 witness: a set construction given the unhashable `list` type fails
with `InvalidTypeRestrictionError` both when the data is an iterable whose
element is incompatible with `list` (would independently be a
`TypeRestrictionError`) and when the data is not iterable at all (would
independently be an `IterableExpectedError`); likewise for a list
construction with a non-type restriction and non-iterable data. -/
theorem c7_witness :
    TypedSet.init 0 (some (.iterObj [PyVal.vInt 1])) (.rType .listT) =
      .error .invalidTypeRestrictionError ∧
    TypedSet.init 0 (some (.scalar (PyVal.vInt 3))) (.rType .listT) =
      .error .invalidTypeRestrictionError ∧
    TypedList.init 0 (some (.scalar (PyVal.vInt 3))) .rNotAType =
      .error .invalidTypeRestrictionError :=
  ⟨(c7_restriction_validation_precedence.2.1 0 (.iterObj [PyVal.vInt 1])
      (.rType .listT) ⟨.invalidTypeRestrictionError, by decide⟩ (by decide)).1,
   (c7_restriction_validation_precedence.2.1 0 (.scalar (PyVal.vInt 3))
      (.rType .listT) ⟨.invalidTypeRestrictionError, by decide⟩ (by decide)).1,
   (c7_restriction_validation_precedence.1 0 (.scalar (PyVal.vInt 3))
      (by decide)).1⟩

/-- C8: `copy` on every typed container kind that supports it, in both
tiers, returns a fresh instance (not the receiver) of the same
typed-container class — in the embedding the return type itself is the
typed class, never the plain built-in — with exactly the receiver's
elements and item type. -/
theorem c8_copy_returns_same_typed_class :
    (∀ s : TypedList, s.copy.ident ≠ s.ident ∧ s.copy.items = s.items ∧
      s.copy.i_type = s.i_type) ∧
    (∀ s : TypedList_lt, s.copy.ident ≠ s.ident ∧ s.copy.items = s.items ∧
      s.copy.i_type = s.i_type) ∧
    (∀ s : TypedSet, s.copy.ident ≠ s.ident ∧ s.copy.items = s.items ∧
      s.copy.i_type = s.i_type) ∧
    (∀ s : TypedSet_lt, s.copy.ident ≠ s.ident ∧ s.copy.items = s.items ∧
      s.copy.i_type = s.i_type) ∧
    (∀ s : TypedFrozenset, s.copy.ident ≠ s.ident ∧ s.copy.items = s.items ∧
      s.copy.i_type = s.i_type) ∧
    (∀ s : TypedFrozenset_lt, s.copy.ident ≠ s.ident ∧ s.copy.items = s.items ∧
      s.copy.i_type = s.i_type) :=
  ⟨fun _ => ⟨Nat.succ_ne_self _, rfl, rfl⟩,
   fun _ => ⟨Nat.succ_ne_self _, rfl, rfl⟩,
   fun _ => ⟨Nat.succ_ne_self _, rfl, rfl⟩,
   fun _ => ⟨Nat.succ_ne_self _, rfl, rfl⟩,
   fun _ => ⟨Nat.succ_ne_self _, rfl, rfl⟩,
   fun _ => ⟨Nat.succ_ne_self _, rfl, rfl⟩⟩

/-- C9: round trip via the typed-converter utility — for every container
class, item type `t` and iterable whose elements are all instances of
`t`, the closure returned by `get_converter_func` applied to the iterable
is exactly the construction `Cls(iterable, i_type=t)`: the same concrete
typed class with the same elements and item type. -/
theorem c9_converter_round_trip :
    ∀ (t : PyType) (obj : PyObj), obj.isIterable = true →
      (∀ x ∈ obj.elems, isinstance x t = true) →
      (∃ conv, get_converter_func_list (.rType t) = .ok conv ∧
        (∀ o, conv o = TypedList.init 0 (some o) (.rType t)) ∧
        conv obj = .ok ⟨0, obj.elems, t⟩) ∧
      (∃ conv, get_converter_func_tuple (.rType t) = .ok conv ∧
        (∀ o, conv o = TypedTuple.init 0 (some o) (.rType t)) ∧
        conv obj = .ok ⟨0, obj.elems, t⟩) ∧
      (t.isHashable = true →
        (∃ conv, get_converter_func_set (.rType t) = .ok conv ∧
          (∀ o, conv o = TypedSet.init 0 (some o) (.rType t)) ∧
          conv obj = .ok ⟨0, obj.elems.toFinset, t⟩) ∧
        (∃ conv, get_converter_func_frozenset (.rType t) = .ok conv ∧
          (∀ o, conv o = TypedFrozenset.init 0 (some o) (.rType t)) ∧
          conv obj = .ok ⟨0, obj.elems.toFinset, t⟩)) := by
  intro t obj hit hc
  refine ⟨⟨fun o => TypedList.init 0 (some o) (.rType t), ?_, fun o => rfl, ?_⟩,
    ⟨fun o => TypedTuple.init 0 (some o) (.rType t), ?_, fun o => rfl, ?_⟩, ?_⟩
  · unfold get_converter_func_list
    rw [show validate_item_type false (.rType t) = .ok t by
      simp [validate_item_type]]
  · exact list_init_ok_of hit hc
  · unfold get_converter_func_tuple
    rw [show validate_item_type false (.rType t) = .ok t by
      simp [validate_item_type]]
  · exact tuple_init_ok_of hit hc
  · intro hh
    refine ⟨⟨fun o => TypedSet.init 0 (some o) (.rType t), ?_, fun o => rfl, ?_⟩,
      ⟨fun o => TypedFrozenset.init 0 (some o) (.rType t), ?_, fun o => rfl, ?_⟩⟩
    · unfold get_converter_func_set
      rw [show validate_item_type true (.rType t) = .ok t by
        simp [validate_item_type, hh]]
    · exact set_init_ok_of hh hit hc
    · unfold get_converter_func_frozenset
      rw [show validate_item_type true (.rType t) = .ok t by
        simp [validate_item_type, hh]]
    · exact fs_init_ok_of hh hit hc

/-- C9 witness: converting a concrete all-string tuple through the
list-converter closure equals constructing the typed list directly. -/
theorem c9_witness :
    (∃ conv, get_converter_func_list (.rType .strT) = .ok conv ∧
      (∀ o, conv o = TypedList.init 0 (some o) (.rType .strT)) ∧
      conv (.iterObj [PyVal.vStr "a", PyVal.vStr "b"]) =
        .ok ⟨0, [PyVal.vStr "a", PyVal.vStr "b"], .strT⟩) :=
  (c9_converter_round_trip .strT (.iterObj [PyVal.vStr "a", PyVal.vStr "b"])
    (by decide) (by decide)).1

/-- C10: for every complete-tier `TypedFrozenset`, calling `difference`,
`intersection` or `union` with zero arguments succeeds and returns a new
typed frozenset — a fresh instance, not the receiver — of the same class
and item type with exactly the same elements. -/
theorem c10_zero_argument_derivations :
    ∀ s : TypedFrozenset,
      s.difference [] = .ok (s.freshFrom s.items) ∧
      s.intersection [] = .ok (s.freshFrom s.items) ∧
      s.union [] = .ok (s.freshFrom s.items) ∧
      (s.freshFrom s.items).ident ≠ s.ident ∧
      (s.freshFrom s.items).items = s.items ∧
      (s.freshFrom s.items).i_type = s.i_type := by
  intro s
  refine ⟨?_, ?_, ?_, Nat.succ_ne_self _, rfl, rfl⟩
  · have h := @difference_ok s [] (by intro o ho; cases ho)
    simpa using h
  · have h := @intersection_ok s [] (by intro o ho; cases ho)
    simpa using h
  · have h := @union_ok_no_gen s []
      (by intro o ho; cases ho) (by intro o ho; cases ho)
      (by intro o ho; cases ho)
    simpa using h
